import Mathlib

/-!
Verification of the OpenSC PKCS#15 cryptographic operation runtime
(`src/libopensc/pkcs15-sec.c`) and of the PKCS#11 module lifecycle /
slot registry (`src/pkcs11/pkcs11-global.c`).

The C code is embedded shallowly:

* machine integers become `Int` (results / error codes) and `Nat` (flag
  bitmasks, sizes);
* the external device transport (`sc_select_file`, `sc_set_security_env`,
  the card primitives, `sc_lock`/`sc_unlock`), the PIN cache and the pure
  padding helpers are collaborators outside this repository; they are
  modelled as response oracles carried by `P15Card`, indexed by the number
  of calls already made, and every interaction with the device is recorded
  in an explicit event trace (`DevState`) so that claims about "how many
  device calls happen" and "is the lock held" are statements about the
  trace;
* fallible C functions returning a negative `int` become functions into
  `Int` (or `Except Int _` where the value matters).

The numeric values of the `SC_ERROR_*` codes are immaterial to the code
(which only compares them for sign and for equality with
`SC_ERROR_SECURITY_STATUS_NOT_SATISFIED`); they are kept distinct
negative numbers here.
-/

/-! ### Error codes (errors.h collaborators; distinct negative values) -/

def SC_SUCCESS : Int := 0
def SC_ERROR_NOT_SUPPORTED : Int := -1408
def SC_ERROR_NOT_ALLOWED : Int := -1501
def SC_ERROR_INVALID_ARGUMENTS : Int := -1300
def SC_ERROR_INCORRECT_PARAMETERS : Int := -1302
def SC_ERROR_BUFFER_TOO_SMALL : Int := -1304
def SC_ERROR_SECURITY_STATUS_NOT_SATISFIED : Int := -1211
def SC_ERROR_TOO_MANY_OBJECTS : Int := -1409
def SC_ERROR_OUT_OF_MEMORY : Int := -1113
def SC_ERROR_INVALID_DATA : Int := -1406
def SC_ERROR_INTERNAL : Int := -1111

/-! ### Key-usage bits (pkcs15.h) -/

def SC_PKCS15_PRKEY_USAGE_ENCRYPT : Nat := 0x01
def SC_PKCS15_PRKEY_USAGE_DECRYPT : Nat := 0x02
def SC_PKCS15_PRKEY_USAGE_SIGN : Nat := 0x04
def SC_PKCS15_PRKEY_USAGE_SIGNRECOVER : Nat := 0x08
def SC_PKCS15_PRKEY_USAGE_WRAP : Nat := 0x10
def SC_PKCS15_PRKEY_USAGE_UNWRAP : Nat := 0x20
def SC_PKCS15_PRKEY_USAGE_VERIFY : Nat := 0x40
def SC_PKCS15_PRKEY_USAGE_VERIFYRECOVER : Nat := 0x80
def SC_PKCS15_PRKEY_USAGE_DERIVE : Nat := 0x100
def SC_PKCS15_PRKEY_USAGE_NONREPUDIATION : Nat := 0x200

/-- USAGE_ANY_SIGN from pkcs15-sec.c (sign or non-repudiation). -/
def USAGE_ANY_SIGN : Nat :=
  SC_PKCS15_PRKEY_USAGE_SIGN ||| SC_PKCS15_PRKEY_USAGE_NONREPUDIATION

/-- USAGE_ANY_DECIPHER from pkcs15-sec.c (decrypt or unwrap). -/
def USAGE_ANY_DECIPHER : Nat :=
  SC_PKCS15_PRKEY_USAGE_DECRYPT ||| SC_PKCS15_PRKEY_USAGE_UNWRAP

/-! ### Algorithm tags and algorithm flags (opensc.h bit layout) -/

def SC_ALGORITHM_RSA : Nat := 0
def SC_ALGORITHM_EC : Nat := 2
def SC_ALGORITHM_GOSTR3410 : Nat := 3
def SC_ALGORITHM_EDDSA : Nat := 4
def SC_ALGORITHM_XEDDSA : Nat := 5
def SC_ALGORITHM_AES : Nat := 66

def SC_ALGORITHM_RSA_RAW : Nat := 0x1
def SC_ALGORITHM_RSA_PAD_NONE : Nat := 0x1
def SC_ALGORITHM_RSA_PAD_PKCS1_TYPE_01 : Nat := 0x2
def SC_ALGORITHM_RSA_PAD_PKCS1_TYPE_02 : Nat := 0x4
def SC_ALGORITHM_RSA_PAD_ANSI : Nat := 0x8
def SC_ALGORITHM_RSA_PAD_ISO9796 : Nat := 0x10
def SC_ALGORITHM_RSA_PAD_PSS : Nat := 0x20
def SC_ALGORITHM_RSA_PAD_OAEP : Nat := 0x40
/-- Mask of every RSA padding bit. -/
def SC_ALGORITHM_RSA_PADS : Nat := 0x7F
def SC_ALGORITHM_RSA_HASH_NONE : Nat := 0x100
/-- Mask of the ECDSA device-side hash bits. -/
def SC_ALGORITHM_ECDSA_HASHES : Nat := 0x3E00
def SC_ALGORITHM_ECDSA_RAW : Nat := 0x10000
def SC_ALGORITHM_AES_ECB : Nat := 0x01000000
def SC_ALGORITHM_AES_CBC : Nat := 0x02000000
def SC_ALGORITHM_AES_CBC_PAD : Nat := 0x04000000
def SC_ALGORITHM_NEED_USAGE : Nat := 0x40000000

/-! ### Security-environment flags (opensc.h) -/

def SC_SEC_ENV_ALG_REF_PRESENT : Nat := 0x0001
def SC_SEC_ENV_FILE_REF_PRESENT : Nat := 0x0002
def SC_SEC_ENV_KEY_REF_PRESENT : Nat := 0x0004
def SC_SEC_ENV_ALG_PRESENT : Nat := 0x0010
def SC_SEC_ENV_MAX_PARAMS : Nat := 10

/-! ### PKCS#11 constants used by the source -/

def CKK_AES : Nat := 0x1F
def CKM_AES_ECB : Nat := 0x1081
def CKM_AES_CBC : Nat := 0x1082
def CKM_AES_CBC_PAD : Nat := 0x1085

def CKR_OK : Nat := 0
def CKR_HOST_MEMORY : Nat := 2
def CKR_GENERAL_ERROR : Nat := 5
def CKR_ARGUMENTS_BAD : Nat := 7
def CKR_BUFFER_TOO_SMALL : Nat := 0x150
def CKR_CRYPTOKI_ALREADY_INITIALIZED : Nat := 0x191
def CKF_OS_LOCKING_OK : Nat := 0x2

/-- BYTES4BITS from the source: byte length of a bit length, rounded up. -/
def bytes4bits (n : Nat) : Nat := (n + 7) / 8

/-- Clearing a bitmask on a `Nat`: `x & ~mask` (the cleared bits of `x`
are exactly `x - (x &&& mask)` because the two parts are disjoint). -/
def andNot (x mask : Nat) : Nat := x - (x &&& mask)

/-! ### Data model -/

/-- An sc_path: the `value`/`len` byte path and the application `aid`. -/
structure ScPath where
  value : List Nat
  aid : List Nat
deriving Repr, DecidableEq

/-- The object type tag (`obj->type`), collapsing the class mask and the
concrete key type of the PKCS#15 object directory. -/
inductive ObjType
  | prkeyRsa
  | prkeyGostr3410
  | prkeyEddsa
  | prkeyXeddsa
  | prkeyEc
  | skeyDes
  | skey3des
  | skeyGeneric
  | nonKey
deriving Repr, DecidableEq

/-- `(obj->type & SC_PKCS15_TYPE_CLASS_MASK) == SC_PKCS15_TYPE_PRKEY`. -/
def ObjType.isPrkey : ObjType → Bool
  | .prkeyRsa | .prkeyGostr3410 | .prkeyEddsa | .prkeyXeddsa | .prkeyEc => true
  | _ => false

/-- `(obj->type & SC_PKCS15_TYPE_CLASS_MASK) == SC_PKCS15_TYPE_SKEY`. -/
def ObjType.isSkey : ObjType → Bool
  | .skeyDes | .skey3des | .skeyGeneric => true
  | _ => false

/-- A PKCS#15 key object together with its info record.  The C source
reads the same `obj->data` storage through the aliased
`sc_pkcs15_prkey_info` / `sc_pkcs15_skey_info` views (whose leading
fields `usage`, `native`, `key_reference` coincide); here it is one
record and the type-specific size fields live side by side. -/
structure P15Object where
  objType : ObjType
  usage : Nat
  native : Bool
  keyReference : Int
  modulusLength : Nat
  fieldLength : Nat
  valueLen : Nat
  keyType : Nat
  path : ScPath
deriving Repr, DecidableEq

/-- One entry of `tokeninfo->supported_algos` (capability table). -/
structure SupportedAlgo where
  reference : Nat
  mechanism : Nat
  algo_ref : Nat
deriving Repr, DecidableEq

/-- The relevant fields of `sc_algorithm_info_t` returned by the card's
capability lookup. -/
structure AlgInfo where
  flags : Nat
  key_length : Nat
deriving Repr, DecidableEq

/-- Values of `senv->operation`. -/
inductive SecOperation
  | noneOp
  | decipher
  | sign
  | derive
  | wrap
  | unwrap
  | encryptSym
  | decryptSym
deriving Repr, DecidableEq

/-- An auxiliary parameter slot of the security environment. -/
inductive SecParam
  | targetFile (p : ScPath)
  | iv (bytes : Option (List Nat)) (len : Nat)
deriving Repr, DecidableEq

/-- `sc_security_env_t`.  `key_ref` keeps its meaningful prefix
(`key_ref_len` is its length); `params` keeps the filled prefix of the
fixed ten-slot array. -/
structure SecurityEnv where
  flags : Nat
  operation : SecOperation
  algorithm : Nat
  algorithm_flags : Nat
  algorithm_ref : Nat
  key_size_bits : Nat
  file_ref : ScPath
  key_ref : List Nat
  params : List SecParam
  supported_algos : List SupportedAlgo
deriving Repr, DecidableEq

/-- The zeroed environment produced by `memset(senv_out, 0, ...)`. -/
def SecurityEnv.empty : SecurityEnv :=
  { flags := 0, operation := .noneOp, algorithm := 0, algorithm_flags := 0
  , algorithm_ref := 0, key_size_bits := 0, file_ref := ⟨[], []⟩
  , key_ref := [], params := [], supported_algos := [] }

/-! ### Device interaction trace -/

/-- Which single-shot card primitive a dispatcher call invokes. -/
inductive CmdKind
  | decipher
  | sign
  | wrap
  | unwrap
  | encryptSym
  | decryptSym
deriving Repr, DecidableEq

/-- One recorded device interaction; `depth` is the device-lock nesting
depth held by this module at the moment of the call. -/
inductive DevEvent
  | selectEv (depth : Nat)
  | setEnvEv (depth : Nat)
  | cmdEv (kind : CmdKind) (input : List Nat) (depth : Nat)
  | revalEv (depth : Nat)
deriving Repr, DecidableEq

/-- The instrumented device state: the lock depth currently held, how
many times `sc_lock` was invoked, and the chronological event trace. -/
structure DevState where
  lockDepth : Nat
  lockCalls : Nat
  events : List DevEvent
deriving Repr, DecidableEq

def DevState.init : DevState := ⟨0, 0, []⟩

def DevEvent.isSelect : DevEvent → Bool
  | .selectEv _ => true
  | _ => false

def DevEvent.isSetEnv : DevEvent → Bool
  | .setEnvEv _ => true
  | _ => false

def DevEvent.isReval : DevEvent → Bool
  | .revalEv _ => true
  | _ => false

def DevEvent.isCmd (k : CmdKind) : DevEvent → Bool
  | .cmdEv k' _ _ => k' = k
  | _ => false

/-- Number of `sc_select_file` calls recorded so far. -/
def DevState.nSelect (st : DevState) : Nat := (st.events.filter DevEvent.isSelect).length

/-- Number of `sc_set_security_env` calls recorded so far. -/
def DevState.nSetEnv (st : DevState) : Nat := (st.events.filter DevEvent.isSetEnv).length

/-- Number of cached-PIN revalidation attempts recorded so far. -/
def DevState.nReval (st : DevState) : Nat := (st.events.filter DevEvent.isReval).length

/-- Number of invocations of the card primitive `k` recorded so far. -/
def DevState.nCmd (st : DevState) (k : CmdKind) : Nat :=
  (st.events.filter (DevEvent.isCmd k)).length

/-! ### The card with its external collaborators as oracles -/

/-- `sc_pkcs15_card` together with the response oracles of every
external collaborator the runtime calls.  Each oracle is indexed by the
number of calls of that kind already made, so a theorem's hypotheses can
pin down an arbitrary device behaviour. -/
structure P15Card where
  file_app : Option ScPath
  supported_algos : List SupportedAlgo
  find_rsa_alg : Nat → Option AlgInfo
  find_gostr3410_alg : Nat → Option AlgInfo
  find_eddsa_alg : Nat → Option AlgInfo
  find_xeddsa_alg : Nat → Option AlgInfo
  find_ec_alg : Nat → Option AlgInfo
  find_aes_alg : Nat → Option AlgInfo
  /-- `sc_get_encoding_flags ctx flags alg_flags` → `(pad_flags, sec_flags)`. -/
  get_encoding_flags : Nat → Nat → Except Int (Nat × Nat)
  lockRes : Nat → Int
  selectRes : Nat → Int
  setEnvRes : Nat → Int
  cmdRes : CmdKind → Nat → Int
  cmdOut : CmdKind → Nat → List Nat
  revalRes : Nat → Int
  /-- Whether `sc_mem_secure_alloc` succeeds in this call. -/
  allocOk : Bool
  /-- `sc_pkcs1_encode flags data mod_bits` → encoded block. -/
  pkcs1_encode : Nat → List Nat → Nat → Except Int (List Nat)
  /-- Constant-time PKCS#1 v1.5 type-02 strip: `key_bytes, data` →
  (result code, depadded bytes). -/
  strip_02 : Nat → List Nat → Int × List Nat
  /-- DigestInfo strip helper: `data` → (hash algorithm flag, stripped data). -/
  strip_digest_info : List Nat → Except Int (Nat × List Nat)

/-! ### Small device-call wrappers (they record trace events) -/

def sc_lock (c : P15Card) (st : DevState) : Int × DevState :=
  let r := c.lockRes st.lockCalls
  if r = SC_SUCCESS then
    (r, { st with lockCalls := st.lockCalls + 1, lockDepth := st.lockDepth + 1 })
  else
    (r, { st with lockCalls := st.lockCalls + 1 })

def sc_unlock (st : DevState) : DevState :=
  { st with lockDepth := st.lockDepth - 1 }

def sc_select_file (c : P15Card) (st : DevState) : Int × DevState :=
  (c.selectRes st.nSelect, { st with events := st.events ++ [.selectEv st.lockDepth] })

def sc_set_security_env (c : P15Card) (st : DevState) : Int × DevState :=
  (c.setEnvRes st.nSetEnv, { st with events := st.events ++ [.setEnvEv st.lockDepth] })

/-- Overwrite the front of a caller buffer with bytes the device wrote;
the buffer keeps its declared length. -/
def overwriteFront (buf w : List Nat) : List Nat :=
  w.take buf.length ++ buf.drop (min w.length buf.length)

/-- Invoke one card primitive: consume the next oracle response and
record the invocation (with its input and the current lock depth). -/
def card_command (c : P15Card) (k : CmdKind) (input out : List Nat) (st : DevState) :
    Int × List Nat × DevState :=
  let i := st.nCmd k
  (c.cmdRes k i, overwriteFront out (c.cmdOut k i),
    { st with events := st.events ++ [.cmdEv k input st.lockDepth] })

def sc_pkcs15_pincache_revalidate (c : P15Card) (st : DevState) : Int × DevState :=
  (c.revalRes st.nReval, { st with events := st.events ++ [.revalEv st.lockDepth] })

/-! ### pkcs15-sec.c: helpers -/

/-- `sec_env_add_param`: insert into the first empty slot of the
ten-slot parameter array (the array starts zeroed and is only ever
filled left to right, so it is the filled prefix `se.params`). -/
def sec_env_add_param (se : SecurityEnv) (p : SecParam) : Except Int SecurityEnv :=
  if se.params.length < SC_SEC_ENV_MAX_PARAMS then
    .ok { se with params := se.params ++ [p] }
  else
    .error SC_ERROR_TOO_MANY_OBJECTS

/-- `get_file_path`: fetch the key file path from the private-key or
secret-key view of the object. -/
def get_file_path (obj : P15Object) : Except Int ScPath :=
  if obj.objType.isPrkey || obj.objType.isSkey then .ok obj.path
  else .error SC_ERROR_INCORRECT_PARAMETERS

/-- The `path.len != 0 || path.aid.len != 0` test of `use_key`. -/
def pathNonzero (p : ScPath) : Bool :=
  p.value.length != 0 || p.aid.length != 0

/-- The three path shapes `select_key_file` accepts (anything else is an
invalid-argument error). -/
def pathShapeOk (c : P15Card) (p : ScPath) : Prop :=
  (p.value.length = 0 ∧ p.aid.length ≠ 0) ∨
    (p.value.length = 2 ∧ c.file_app.isSome) ∨ 2 < p.value.length

instance (c : P15Card) (p : ScPath) : Decidable (pathShapeOk c p) := by
  unfold pathShapeOk; infer_instance

/-- `select_key_file`: resolve the key's on-device location, record the
chosen file reference into the environment and select the file. -/
def select_key_file (c : P15Card) (key : P15Object) (senv : SecurityEnv)
    (st : DevState) : Int × SecurityEnv × DevState :=
  match get_file_path key with
  | .error e => (e, senv, st)
  | .ok orig =>
    if orig.value.length = 0 ∧ orig.aid.length ≠ 0 then
      -- SDO allocated in the application DF: absolute aid path, no file_ref
      let (r, st) := sc_select_file c st
      (if r < 0 then r else SC_SUCCESS, senv, st)
    else if orig.value.length = 2 ∧ c.file_app.isSome then
      -- path relative to the application DF
      let senv := { senv with file_ref := orig
                            , flags := senv.flags ||| SC_SEC_ENV_FILE_REF_PRESENT }
      let (r, st) := sc_select_file c st
      (if r < 0 then r else SC_SUCCESS, senv, st)
    else if 2 < orig.value.length then
      -- absolute path: last two bytes become the direct file reference
      let file_id : ScPath := ⟨orig.value.drop (orig.value.length - 2), []⟩
      let senv := { senv with file_ref := file_id
                            , flags := senv.flags ||| SC_SEC_ENV_FILE_REF_PRESENT }
      let (r, st) := sc_select_file c st
      (if r < 0 then r else SC_SUCCESS, senv, st)
    else
      (SC_ERROR_INVALID_ARGUMENTS, senv, st)

/-! ### pkcs15-sec.c: format_senv (Security Environment Builder) -/

/-- `format_senv`: build the security environment and look up the
card-advertised capability entry for the key's type and size. -/
def format_senv (c : P15Card) (obj : P15Object) : Except Int (SecurityEnv × AlgInfo) :=
  let senv0 : SecurityEnv := { SecurityEnv.empty with supported_algos := c.supported_algos }
  if ¬(obj.objType.isPrkey || obj.objType.isSkey) then .error SC_ERROR_NOT_ALLOWED
  else if ¬obj.native then .error SC_ERROR_NOT_SUPPORTED
  else
    let step : Except Int (SecurityEnv × AlgInfo) :=
      match obj.objType with
      | .prkeyRsa =>
        match c.find_rsa_alg obj.modulusLength with
        | none => .error SC_ERROR_NOT_SUPPORTED
        | some ai =>
          .ok ({ senv0 with algorithm := SC_ALGORITHM_RSA
                          , key_size_bits := obj.modulusLength }, ai)
      | .prkeyGostr3410 =>
        match c.find_gostr3410_alg obj.modulusLength with
        | none => .error SC_ERROR_NOT_SUPPORTED
        | some ai =>
          .ok ({ senv0 with algorithm := SC_ALGORITHM_GOSTR3410
                          , key_size_bits := obj.modulusLength }, ai)
      | .prkeyEddsa =>
        match c.find_eddsa_alg obj.fieldLength with
        | none => .error SC_ERROR_NOT_SUPPORTED
        | some ai =>
          .ok ({ senv0 with algorithm := SC_ALGORITHM_EDDSA
                          , key_size_bits := obj.fieldLength }, ai)
      | .prkeyXeddsa =>
        match c.find_xeddsa_alg obj.fieldLength with
        | none => .error SC_ERROR_NOT_SUPPORTED
        | some ai =>
          .ok ({ senv0 with algorithm := SC_ALGORITHM_XEDDSA
                          , key_size_bits := obj.fieldLength }, ai)
      | .prkeyEc =>
        match c.find_ec_alg obj.fieldLength with
        | none => .error SC_ERROR_NOT_SUPPORTED
        | some ai =>
          .ok ({ senv0 with algorithm := SC_ALGORITHM_EC
                          , key_size_bits := obj.fieldLength
                          , flags := senv0.flags ||| SC_SEC_ENV_ALG_REF_PRESENT
                          , algorithm_ref := obj.fieldLength }, ai)
      | .skeyGeneric =>
        if obj.keyType ≠ CKK_AES then .error SC_ERROR_NOT_SUPPORTED
        else
          match c.find_aes_alg obj.valueLen with
          | none => .error SC_ERROR_NOT_SUPPORTED
          | some ai =>
            .ok ({ senv0 with algorithm := SC_ALGORITHM_AES
                            , key_size_bits := obj.valueLen }, ai)
      | _ => .error SC_ERROR_NOT_SUPPORTED
    match step with
    | .error e => .error e
    | .ok (senv, ai) =>
      let senv := { senv with flags := senv.flags ||| SC_SEC_ENV_ALG_PRESENT }
      let senv :=
        if 0 ≤ obj.keyReference then
          { senv with key_ref := [obj.keyReference.toNat % 256]
                    , flags := senv.flags ||| SC_SEC_ENV_KEY_REF_PRESENT }
        else senv
      .ok (senv, ai)

/-! ### pkcs15-sec.c: use_key (Crypto Operation Dispatcher) -/

/-- One iteration of the `use_key` do/while body up to the card-command
invocation: select the key file when the key has a location, push the
environment, invoke the primitive.  `r0` is the value of `r` on entry
to the loop body (the select result overwrites it only when a file is
selected). -/
def use_key_attempt (c : P15Card) (obj : P15Object) (senv : SecurityEnv)
    (kind : CmdKind) (input out : List Nat) (r0 : Int) (path : ScPath)
    (st : DevState) : Int × SecurityEnv × List Nat × DevState :=
  let (r, senv, st) :=
    if pathNonzero path then
      select_key_file c obj senv st
    else
      (r0, senv, st)
  if r = SC_SUCCESS then
    let (r, st) := sc_set_security_env c st
    if r = SC_SUCCESS then
      let (r, out, st) := card_command c kind input out st
      (r, senv, out, st)
    else (r, senv, out, st)
  else (r, senv, out, st)

/-- `use_key`: the crypto-operation dispatcher.  Takes the device lock,
runs the select/set-environment/invoke sequence, performs at most one
cached-PIN revalidation retry, and releases the lock on every exit
path after a successful `sc_lock`. -/
def use_key (c : P15Card) (obj : P15Object) (senv : SecurityEnv) (kind : CmdKind)
    (input out : List Nat) (st : DevState) : Int × SecurityEnv × List Nat × DevState :=
  match get_file_path obj with
  | .error e => (e, senv, out, st)
  | .ok path =>
    let (rl, st) := sc_lock c st
    if rl < 0 then (rl, senv, out, st)
    else
      let (r1, senv1, out1, st1) := use_key_attempt c obj senv kind input out SC_SUCCESS path st
      if r1 = SC_ERROR_SECURITY_STATUS_NOT_SATISFIED then
        let (rv, st2) := sc_pkcs15_pincache_revalidate c st1
        if rv < 0 then
          (rv, senv1, out1, sc_unlock st2)
        else
          let (r2, senv2, out2, st3) := use_key_attempt c obj senv1 kind input out1 rv path st2
          (r2, senv2, out2, sc_unlock st3)
      else
        (r1, senv1, out1, sc_unlock st1)

/-! ### pkcs15-sec.c: sc_pkcs15_decipher -/

/-- `sc_pkcs15_decipher`: usage gate, environment build, flag
negotiation, dispatch through `use_key` with the decipher primitive,
then constant-time PKCS#1 v1.5 de-padding when software de-padding was
negotiated.  (The OAEP branch is compiled out in the modelled build.) -/
def sc_pkcs15_decipher (c : P15Card) (obj : P15Object) (flags : Nat)
    (input out : List Nat) (st : DevState) : Int × List Nat × DevState :=
  if obj.usage &&& (SC_PKCS15_PRKEY_USAGE_DECRYPT ||| SC_PKCS15_PRKEY_USAGE_UNWRAP) = 0 then
    (SC_ERROR_NOT_ALLOWED, out, st)
  else
    match format_senv c obj with
    | .error e => (e, out, st)
    | .ok (senv, alg_info) =>
      let senv := { senv with operation := .decipher }
      match c.get_encoding_flags flags alg_info.flags with
      | .error e => (e, out, st)
      | .ok (pad_flags, sec_flags) =>
        let senv := { senv with algorithm_flags := sec_flags }
        let (r, _, out, st) := use_key c obj senv .decipher input out st
        if r < 0 then (r, out, st)
        else if pad_flags &&& SC_ALGORITHM_RSA_PAD_PKCS1_TYPE_02 ≠ 0 then
          let (r2, w) := c.strip_02 (alg_info.key_length / 8) (out.take r.toNat)
          (r2, overwriteFront out w, st)
        else (r, out, st)

/-! ### pkcs15-sec.c: sc_pkcs15_derive -/

/-- `sc_pkcs15_derive`: ECDH key derivation (EC / XEdDSA only), with
the PKCS#11 size-query convention checked before any device
interaction.  Returns (result, final `*poutlen`, device state). -/
def sc_pkcs15_derive (c : P15Card) (obj : P15Object) (flags : Nat)
    (input : List Nat) (out : Option (List Nat)) (poutlen : Nat)
    (st : DevState) : Int × Nat × DevState :=
  if obj.usage &&& SC_PKCS15_PRKEY_USAGE_DERIVE = 0 then
    (SC_ERROR_NOT_ALLOWED, poutlen, st)
  else if ¬(obj.objType = .prkeyEc ∨ obj.objType = .prkeyXeddsa) then
    (SC_ERROR_NOT_SUPPORTED, poutlen, st)
  else if out = none ∨ poutlen < bytes4bits obj.fieldLength then
    -- size query: report the required size, say "no data to return"
    (0, bytes4bits obj.fieldLength, st)
  else
    match format_senv c obj with
    | .error e => (e, poutlen, st)
    | .ok (senv, alg_info) =>
      let senv := { senv with operation := .derive }
      match c.get_encoding_flags flags alg_info.flags with
      | .error e => (e, poutlen, st)
      | .ok (_, sec_flags) =>
        let senv := { senv with algorithm_flags := sec_flags }
        let (r, _, _, st) := use_key c obj senv .decipher input (out.getD []) st
        if r < 0 then (r, poutlen, st)
        else (r, r.toNat, st)

/-! ### pkcs15-sec.c: sc_pkcs15_unwrap / sc_pkcs15_wrap -/

/-- The target-key path resolution shared by wrap and unwrap: same
relative/absolute rule as `select_key_file`, yielding the
`target_file_id` attached to the environment as auxiliary data. -/
def resolve_target_file (c : P15Card) (tkey_path : ScPath) : Except Int ScPath :=
  if tkey_path.value.length = 0 ∧ tkey_path.aid.length ≠ 0 then
    .ok tkey_path
  else if tkey_path.value.length = 2 ∧ c.file_app.isSome then
    .ok ⟨(c.file_app.getD ⟨[], []⟩).value ++ tkey_path.value, (c.file_app.getD ⟨[], []⟩).aid⟩
  else if 2 < tkey_path.value.length then
    .ok ⟨tkey_path.value.drop (tkey_path.value.length - 2), []⟩
  else
    .error SC_ERROR_INVALID_ARGUMENTS

/-- `sc_pkcs15_unwrap`: unwrap a key into an on-card target object. -/
def sc_pkcs15_unwrap (c : P15Card) (key target_key : P15Object) (flags : Nat)
    (input : List Nat) (param : Option (List Nat)) (paramlen : Nat)
    (st : DevState) : Int × DevState :=
  let usageGate : Except Int Unit :=
    if key.objType = .prkeyRsa then
      if key.usage &&& SC_PKCS15_PRKEY_USAGE_UNWRAP = 0 then .error SC_ERROR_NOT_ALLOWED
      else .ok ()
    else if key.objType.isSkey then
      if key.usage &&& SC_PKCS15_PRKEY_USAGE_UNWRAP = 0 then .error SC_ERROR_NOT_ALLOWED
      else .ok ()
    else .error SC_ERROR_NOT_SUPPORTED
  match usageGate with
  | .error e => (e, st)
  | .ok () =>
    match format_senv c key with
    | .error e => (e, st)
    | .ok (senv, alg_info) =>
      let senv := { senv with operation := .unwrap }
      match resolve_target_file c target_key.path with
      | .error e => (e, st)
      | .ok target_file_id =>
        match sec_env_add_param senv (.targetFile target_file_id) with
        | .error e => (e, st)
        | .ok senv =>
          match c.get_encoding_flags flags alg_info.flags with
          | .error e => (e, st)
          | .ok (_, sec_flags) =>
            let senv := { senv with algorithm_flags := sec_flags }
            match (if sec_flags &&& (SC_ALGORITHM_AES_CBC ||| SC_ALGORITHM_AES_CBC_PAD) ≠ 0 then
                     sec_env_add_param senv (.iv param paramlen)
                   else .ok senv) with
            | .error e => (e, st)
            | .ok senv =>
              let (r, _, _, st) := use_key c key senv .unwrap input [] st
              (r, st)

/-- `sc_pkcs15_wrap`: wrap a key and return the cryptogram, reconciling
the declared caller buffer against the actual device output length.
Returns (result, final `*crgram_len`, device state). -/
def sc_pkcs15_wrap (c : P15Card) (key target_key : P15Object) (flags : Nat)
    (cryptogram : Option (List Nat)) (crgram_len : Option Nat)
    (param : Option (List Nat)) (paramlen : Nat) (st : DevState) :
    Int × Option Nat × DevState :=
  let usageGate : Except Int Unit :=
    match key.objType with
    | .prkeyRsa =>
      if key.usage &&& SC_PKCS15_PRKEY_USAGE_WRAP = 0 then .error SC_ERROR_NOT_ALLOWED
      else .ok ()
    | .skeyDes | .skey3des | .skeyGeneric =>
      if key.usage &&& SC_PKCS15_PRKEY_USAGE_WRAP = 0 then .error SC_ERROR_NOT_ALLOWED
      else .ok ()
    | _ => .error SC_ERROR_NOT_SUPPORTED
  match usageGate with
  | .error e => (e, crgram_len, st)
  | .ok () =>
    if ¬(target_key.objType = .prkeyRsa ∨ target_key.objType.isSkey) then
      (SC_ERROR_NOT_SUPPORTED, crgram_len, st)
    else
      match format_senv c key with
      | .error e => (e, crgram_len, st)
      | .ok (senv, alg_info) =>
        let senv := { senv with operation := .wrap }
        match resolve_target_file c target_key.path with
        | .error e => (e, crgram_len, st)
        | .ok target_file_id =>
          match sec_env_add_param senv (.targetFile target_file_id) with
          | .error e => (e, crgram_len, st)
          | .ok senv =>
            match c.get_encoding_flags flags alg_info.flags with
            | .error e => (e, crgram_len, st)
            | .ok (_, sec_flags) =>
              let senv := { senv with algorithm_flags := sec_flags }
              match (if sec_flags &&& (SC_ALGORITHM_AES_CBC ||| SC_ALGORITHM_AES_CBC_PAD) ≠ 0 then
                       sec_env_add_param senv (.iv param paramlen)
                     else .ok senv) with
              | .error e => (e, crgram_len, st)
              | .ok senv =>
                let (r, _, _, st) := use_key c key senv .wrap [] (cryptogram.getD []) st
                if -1 < r then
                  match crgram_len with
                  | none => (r, none, st)
                  | some declared =>
                    if declared < r.toNat then
                      if cryptogram ≠ none then
                        (SC_ERROR_BUFFER_TOO_SMALL, some r.toNat, st)
                      else
                        -- null buffer: PKCS#11 length-only query succeeds
                        (r, some r.toNat, st)
                    else
                      (r, some r.toNat, st)
                else (r, crgram_len, st)

/-! ### pkcs15-sec.c: sc_pkcs15_compute_signature -/

/-- The tail of `sc_pkcs15_compute_signature` common to every encoding
path: dispatch through `use_key` with the sign primitive and, for RSA,
right-shift a device signature shorter than the modulus into a
zero-left-padded modulus-length buffer. -/
def compute_signature_dispatch (c : P15Card) (obj : P15Object) (senv : SecurityEnv)
    (modlen : Nat) (buf : List Nat) (inlen : Nat) (out : List Nat)
    (st : DevState) : Int × List Nat × DevState :=
  let (r, _, out, st) := use_key c obj senv .sign (buf.take inlen) out st
  if r < 0 then (r, out, st)
  else if obj.objType = .prkeyRsa ∧ r.toNat < modlen then
    ((modlen : Int),
     List.replicate (modlen - r.toNat) 0 ++ out.take r.toNat ++ out.drop modlen, st)
  else (r, out, st)

/-- `sc_pkcs15_compute_signature`: the sign handler.  Computes the
expected signature length, guards the caller buffer, emulates raw RSA
through the decipher handler for combined sign+decrypt keys on
needs-usage cards, opportunistically strips a DigestInfo prefix,
negotiates software padding, and post-processes short RSA signatures. -/
def sc_pkcs15_compute_signature (c : P15Card) (obj : P15Object) (flags0 : Nat)
    (input out : List Nat) (st : DevState) : Int × List Nat × DevState :=
  let inlen0 := input.length
  if obj.usage &&& (SC_PKCS15_PRKEY_USAGE_SIGN ||| SC_PKCS15_PRKEY_USAGE_SIGNRECOVER |||
        SC_PKCS15_PRKEY_USAGE_NONREPUDIATION) = 0 then
    (SC_ERROR_NOT_ALLOWED, out, st)
  else
    match format_senv c obj with
    | .error e => (e, out, st)
    | .ok (senv, alg_info) =>
      let senv := { senv with operation := .sign }
      match (match obj.objType with
             | .prkeyRsa => some (bytes4bits obj.modulusLength)
             | .prkeyGostr3410 => some (bytes4bits obj.modulusLength * 2)
             | .prkeyEc | .prkeyEddsa | .prkeyXeddsa => some (bytes4bits obj.fieldLength * 2)
             | _ => none) with
      | none => (SC_ERROR_NOT_SUPPORTED, out, st)
      | some modlen =>
        if out.length < modlen then (SC_ERROR_BUFFER_TOO_SMALL, out, st)
        else if ¬c.allocOk then (SC_ERROR_OUT_OF_MEMORY, out, st)
        else
          let buflen := inlen0 + modlen
          -- secure buffer: input copied in front (GOST input is reversed)
          let buf : List Nat :=
            if obj.objType = .prkeyGostr3410 then input.reverse ++ List.replicate modlen 0
            else input ++ List.replicate modlen 0
          if obj.objType = .prkeyRsa ∧ alg_info.flags &&& SC_ALGORITHM_NEED_USAGE ≠ 0 ∧
              obj.usage &&& USAGE_ANY_SIGN ≠ 0 ∧ obj.usage &&& USAGE_ANY_DECIPHER ≠ 0 then
            -- the card cannot select sign vs decrypt behaviour: emulate
            -- the signature through the decipher handler
            if flags0 &&& SC_ALGORITHM_RSA_RAW ≠ 0 then
              sc_pkcs15_decipher c obj flags0 input out st
            else if buflen < modlen then (SC_ERROR_NOT_ALLOWED, out, st)
            else
              match c.pkcs1_encode flags0 (buf.take inlen0) obj.modulusLength with
              | .error e => (e, out, st)
              | .ok enc =>
                let flags1 := andNot flags0 SC_ALGORITHM_RSA_PADS ||| SC_ALGORITHM_RSA_RAW
                let buf := enc ++ buf.drop enc.length
                sc_pkcs15_decipher c obj flags1 (buf.take modlen) out st
          else
            -- optional DigestInfo strip when the card only offers
            -- higher-level PKCS#1 signature operations
            let afterStrip : Except Int (Nat × List Nat × Nat) :=
              if obj.objType = .prkeyRsa ∧
                  flags0 = (SC_ALGORITHM_RSA_PAD_PKCS1_TYPE_01 ||| SC_ALGORITHM_RSA_HASH_NONE) ∧
                  alg_info.flags &&& SC_ALGORITHM_RSA_RAW = 0 ∧
                  alg_info.flags &&& SC_ALGORITHM_RSA_HASH_NONE = 0 ∧
                  alg_info.flags &&& SC_ALGORITHM_RSA_PAD_PKCS1_TYPE_01 ≠ 0 then
                match c.strip_digest_info (buf.take inlen0) with
                | .error _ => .error SC_ERROR_INVALID_DATA
                | .ok (algo, stripped) =>
                  if algo = SC_ALGORITHM_RSA_HASH_NONE then .error SC_ERROR_INVALID_DATA
                  else
                    .ok (andNot flags0 SC_ALGORITHM_RSA_HASH_NONE ||| algo,
                         stripped ++ buf.drop stripped.length, stripped.length)
              else .ok (flags0, buf, inlen0)
            match afterStrip with
            | .error e => (e, out, st)
            | .ok (flagsA, bufA, inlenA) =>
              -- prefer raw ECDSA when the card has it and no device-side
              -- hash was requested
              let flagsB :=
                if obj.objType = .prkeyEc ∧
                    alg_info.flags &&& SC_ALGORITHM_ECDSA_RAW ≠ 0 ∧
                    flagsA &&& SC_ALGORITHM_ECDSA_HASHES &&& alg_info.flags = 0 then
                  andNot (flagsA ||| SC_ALGORITHM_ECDSA_RAW) SC_ALGORITHM_ECDSA_HASHES
                else flagsA
              match c.get_encoding_flags flagsB alg_info.flags with
              | .error e => (e, out, st)
              | .ok (pad_flags, sec_flags) =>
                let senv := { senv with algorithm_flags := sec_flags }
                if pad_flags ≠ 0 then
                  match c.pkcs1_encode pad_flags (bufA.take inlenA) obj.modulusLength with
                  | .error e => (e, out, st)
                  | .ok enc =>
                    compute_signature_dispatch c obj senv modlen
                      (enc ++ bufA.drop enc.length) enc.length out st
                else if senv.algorithm = SC_ALGORITHM_RSA ∧
                    flagsB &&& SC_ALGORITHM_RSA_PADS = SC_ALGORITHM_RSA_PAD_NONE then
                  -- zero-pad a short raw-RSA input to the modulus length
                  if inlenA < modlen then
                    if buflen < modlen then (SC_ERROR_BUFFER_TOO_SMALL, out, st)
                    else
                      compute_signature_dispatch c obj senv modlen
                        (List.replicate (modlen - inlenA) 0 ++ bufA.take inlenA ++ bufA.drop modlen)
                        modlen out st
                  else
                    compute_signature_dispatch c obj senv modlen bufA modlen out st
                else if senv.algorithm = SC_ALGORITHM_EC ∧
                    senv.algorithm_flags &&& SC_ALGORITHM_ECDSA_HASHES = 0 then
                  -- token-side truncation convention: pass at most the
                  -- field byte length
                  compute_signature_dispatch c obj senv modlen bufA
                    (min inlenA (bytes4bits obj.fieldLength)) out st
                else
                  compute_signature_dispatch c obj senv modlen bufA inlenA out st

/-! ### pkcs15-sec.c: symmetric encrypt / decrypt -/

/-- The `supported_algos` scan of the symmetric handlers: walk the
capability table up to the first entry with a zero `reference`
(sentinel stop condition) and return the device `algo_ref` of the first
entry whose mechanism matches the negotiated AES mode. -/
def findAlgoRef (sec_flags : Nat) : List SupportedAlgo → Option Nat
  | [] => none
  | a :: rest =>
    if a.reference = 0 then none
    else if (a.mechanism = CKM_AES_ECB ∧ sec_flags = SC_ALGORITHM_AES_ECB) ∨
        (a.mechanism = CKM_AES_CBC ∧ sec_flags = SC_ALGORITHM_AES_CBC) ∨
        (a.mechanism = CKM_AES_CBC_PAD ∧ sec_flags = SC_ALGORITHM_AES_CBC_PAD) then
      some a.algo_ref
    else findAlgoRef sec_flags rest

/-- One iteration of the symmetric-operation do/while body: on a
"begin" call (no output-length pointer) select the key file and push
the environment, then invoke the primitive.  `r` is reset to success at
the top of every iteration in the source. -/
def sym_attempt (c : P15Card) (obj : P15Object) (senv : SecurityEnv)
    (kind : CmdKind) (outlenPresent : Bool) (path : ScPath) (input : List Nat)
    (st : DevState) : Int × SecurityEnv × DevState :=
  if ¬outlenPresent then
    let (r, senv, st) :=
      if pathNonzero path then select_key_file c obj senv st
      else (SC_SUCCESS, senv, st)
    let (r, st) := if r = SC_SUCCESS then sc_set_security_env c st else (r, st)
    if r = SC_SUCCESS then
      let (rc, _, st) := card_command c kind input [] st
      (rc, senv, st)
    else (r, senv, st)
  else
    let (rc, _, st) := card_command c kind input [] st
    (rc, senv, st)

/-- `sc_pkcs15_encrypt_sym`: the symmetric-encryption handler.  Note
that the source checks `r` with a "sc_lock() failed" message but never
calls `sc_lock` (nor `sc_unlock`): `r` is `SC_SUCCESS` at that point,
the check never fires, and the whole select/set-environment/invoke
sequence runs without the device lock.  The embedding mirrors that:
`DevState.lockCalls` stays untouched. -/
def sc_pkcs15_encrypt_sym (c : P15Card) (obj : P15Object) (flags : Nat)
    (input : List Nat) (outlenPresent : Bool) (param : Option (List Nat))
    (paramlen : Nat) (st : DevState) : Int × DevState :=
  if obj.usage &&& SC_PKCS15_PRKEY_USAGE_ENCRYPT = 0 then
    (SC_ERROR_NOT_ALLOWED, st)
  else
    match format_senv c obj with
    | .error e => (e, st)
    | .ok (senv, alg_info) =>
      let senv := { senv with operation := .encryptSym }
      match c.get_encoding_flags flags alg_info.flags with
      | .error e => (e, st)
      | .ok (_, sec_flags) =>
        let senv := { senv with algorithm_flags := sec_flags }
        let senv :=
          match findAlgoRef sec_flags senv.supported_algos with
          | some aref => { senv with algorithm_ref := aref
                                   , flags := senv.flags ||| SC_SEC_ENV_ALG_REF_PRESENT }
          | none => senv
        match (if sec_flags &&& (SC_ALGORITHM_AES_CBC ||| SC_ALGORITHM_AES_CBC_PAD) ≠ 0 then
                 sec_env_add_param senv (.iv param paramlen)
               else .ok senv) with
        | .error e => (e, st)
        | .ok senv =>
          match get_file_path obj with
          | .error e => (e, st)
          | .ok path =>
            -- vestigial `LOG_TEST_RET(ctx, r, "sc_lock() failed")`: r is
            -- SC_SUCCESS here, so the check never fires and no lock is taken
            let (r1, senv1, st1) := sym_attempt c obj senv .encryptSym outlenPresent path input st
            if r1 = SC_ERROR_SECURITY_STATUS_NOT_SATISFIED then
              let (rv, st2) := sc_pkcs15_pincache_revalidate c st1
              if rv < 0 then (rv, st2)
              else
                let (r2, _, st3) := sym_attempt c obj senv1 .encryptSym outlenPresent path input st2
                (r2, st3)
            else (r1, st1)

/-- `sc_pkcs15_decrypt_sym`: the symmetric-decryption handler; same
structure as `sc_pkcs15_encrypt_sym` (and the same missing
`sc_lock`/`sc_unlock`). -/
def sc_pkcs15_decrypt_sym (c : P15Card) (obj : P15Object) (flags : Nat)
    (input : List Nat) (outlenPresent : Bool) (param : Option (List Nat))
    (paramlen : Nat) (st : DevState) : Int × DevState :=
  if obj.usage &&& SC_PKCS15_PRKEY_USAGE_DECRYPT = 0 then
    (SC_ERROR_NOT_ALLOWED, st)
  else
    match format_senv c obj with
    | .error e => (e, st)
    | .ok (senv, alg_info) =>
      let senv := { senv with operation := .decryptSym }
      match c.get_encoding_flags flags alg_info.flags with
      | .error e => (e, st)
      | .ok (_, sec_flags) =>
        let senv := { senv with algorithm_flags := sec_flags }
        let senv :=
          match findAlgoRef sec_flags senv.supported_algos with
          | some aref => { senv with algorithm_ref := aref
                                   , flags := senv.flags ||| SC_SEC_ENV_ALG_REF_PRESENT }
          | none => senv
        match (if sec_flags &&& (SC_ALGORITHM_AES_CBC ||| SC_ALGORITHM_AES_CBC_PAD) ≠ 0 then
                 sec_env_add_param senv (.iv param paramlen)
               else .ok senv) with
        | .error e => (e, st)
        | .ok senv =>
          match get_file_path obj with
          | .error e => (e, st)
          | .ok path =>
            let (r1, senv1, st1) := sym_attempt c obj senv .decryptSym outlenPresent path input st
            if r1 = SC_ERROR_SECURITY_STATUS_NOT_SATISFIED then
              let (rv, st2) := sc_pkcs15_pincache_revalidate c st1
              if rv < 0 then (rv, st2)
              else
                let (r2, _, st3) := sym_attempt c obj senv1 .decryptSym outlenPresent path input st2
                (r2, st3)
            else (r1, st1)

/-! ### pkcs11-global.c: locking negotiation (sc_pkcs11_init_lock) -/

/-- The caller-supplied `CK_C_INITIALIZE_ARGS`: whether each of the four
mutex callbacks is non-null, the flags word, and whether `pReserved`
is non-null. -/
structure InitArgs where
  hasCreateMutex : Bool
  hasDestroyMutex : Bool
  hasLockMutex : Bool
  hasUnlockMutex : Bool
  flags : Nat
  pReservedSet : Bool
deriving Repr, DecidableEq

/-- Which mutex-function table `global_locking` ends up pointing at. -/
inductive LockRegime
  | appLock
  | osLock
  | noLock
deriving Repr, DecidableEq

/-- `applock`: all four caller-supplied mutex callbacks are present. -/
def argsApplock (a : InitArgs) : Bool :=
  a.hasCreateMutex && a.hasDestroyMutex && a.hasLockMutex && a.hasUnlockMutex

/-- `oslock`: the application declared OS locking acceptable. -/
def argsOslock (a : InitArgs) : Bool :=
  a.flags &&& CKF_OS_LOCKING_OK != 0

/-- `sc_pkcs11_init_lock` on the first initialize (`global_lock` still
null): negotiate the locking regime per the PKCS#11 v2.11 rule table
and create the global mutex with the selected table.  `createMutexRv`
is the oracle result of `global_locking->CreateMutex`.  Returns the
call's CK_RV and the regime `global_locking` was set to.  The build is
the threaded one (`HAVE_OS_LOCKING`), where `default_mutex_funcs` is
the built-in OS-backed table. -/
def sc_pkcs11_init_lock (args : Option InitArgs) (createMutexRv : Nat) :
    Nat × LockRegime :=
  match args with
  | none => (CKR_OK, .noLock)
  | some a =>
    if a.pReservedSet then (CKR_ARGUMENTS_BAD, .noLock)
    else
      let applock := argsApplock a
      let oslock := argsOslock a
      let regime :=
        if applock && oslock then LockRegime.appLock
        else if !applock && oslock then LockRegime.osLock
        else if applock && !oslock then LockRegime.appLock
        else LockRegime.osLock
      if regime ≠ LockRegime.noLock then (createMutexRv, regime)
      else (CKR_OK, regime)

/-- `C_Initialize`, modelled for a first, non-nested, same-process call
(current pid equals the recorded pid and the nesting count is zero, so
the fork-recovery and nesting guards fall through unchanged; they are
elided here).  `contextPresent` mirrors `context != NULL`;
`contextCreateOk` / `sessionsInitOk` / `slotsInitOk` are the outcomes
of the external context and list constructors. -/
def C_Initialize (contextPresent : Bool) (args : Option InitArgs)
    (createMutexRv : Nat) (contextCreateOk sessionsInitOk slotsInitOk : Bool) : Nat :=
  if contextPresent then CKR_CRYPTOKI_ALREADY_INITIALIZED
  else
    let rv := (sc_pkcs11_init_lock args createMutexRv).1
    if rv ≠ CKR_OK then rv
    else if ¬contextCreateOk then CKR_GENERAL_ERROR
    else if ¬sessionsInitOk then CKR_HOST_MEMORY
    else if ¬slotsInitOk then CKR_HOST_MEMORY
    else CKR_OK

/-! ### pkcs11-global.c: slot enumeration (C_GetSlotList) -/

/-- One virtual slot: its id, the backing reader (nullable), the
`SC_PKCS11_SLOT_FLAG_SEEN` flag and the `CKF_TOKEN_PRESENT` bit of its
slot info. -/
structure VSlot where
  id : Nat
  reader : Option Nat
  seen : Bool
  tokenPresent : Bool
deriving Repr, DecidableEq

/-- The selection loop of `C_GetSlotList`: walk `virtual_slots` keeping
the previous slot's reader; a slot is returned when (no presence filter
and (it is the first slot of its reader or already seen)) or its token
is present; every returned slot is marked seen.  Returns the updated
slot list and the returned slot ids in order. -/
def slotListLoop (tokenPresent : Bool) (prev : Option Nat) :
    List VSlot → List VSlot × List Nat
  | [] => ([], [])
  | s :: rest =>
    let incl := (!tokenPresent && (decide (s.reader ≠ prev) || s.seen)) || s.tokenPresent
    let s' := if incl then { s with seen := true } else s
    let (rest', ids) := slotListLoop tokenPresent s.reader rest
    (s' :: rest', if incl then s.id :: ids else ids)

/-- The slot-selection semantics of `C_GetSlotList` (`prev_reader`
starts out null). -/
def C_GetSlotList_select (tokenPresent : Bool) (slots : List VSlot) :
    List VSlot × List Nat :=
  slotListLoop tokenPresent none slots

/-- `C_GetSlotList` with a non-null id buffer of the given capacity: a
too-small buffer reports `CKR_BUFFER_TOO_SMALL` with the needed count,
otherwise the ids are copied out.  (The null-count-pointer guard, the
reader re-detection and the surrounding module lock are outside this
selection model.)  Returns (rv, copied ids if any, count, new slots). -/
def C_GetSlotList (tokenPresent : Bool) (bufLen : Nat) (slots : List VSlot) :
    Nat × Option (List Nat) × Nat × List VSlot :=
  let (slots', ids) := C_GetSlotList_select tokenPresent slots
  if bufLen < ids.length then (CKR_BUFFER_TOO_SMALL, none, ids.length, slots')
  else (CKR_OK, some ids, ids.length, slots')

/-! ## Helper lemmas -/

/-- Evaluation of one dispatcher attempt when the key has a location of
an accepted shape and both the file selection and the environment push
succeed: the attempt boils down to the next card-primitive response,
and it appends exactly one select, one set-env and one invoke event. -/
theorem use_key_attempt_ok (c : P15Card) (obj : P15Object) (senv : SecurityEnv)
    (kind : CmdKind) (input out : List Nat) (r0 : Int) (st : DevState)
    (hk : (obj.objType.isPrkey || obj.objType.isSkey) = true)
    (hpn : pathNonzero obj.path = true)
    (hshape : pathShapeOk c obj.path)
    (hsel : c.selectRes st.nSelect = SC_SUCCESS)
    (henv : c.setEnvRes st.nSetEnv = SC_SUCCESS) :
    ∃ senv', use_key_attempt c obj senv kind input out r0 obj.path st =
      (c.cmdRes kind (st.nCmd kind), senv',
       overwriteFront out (c.cmdOut kind (st.nCmd kind)),
       { st with events := st.events ++
           [.selectEv st.lockDepth, .setEnvEv st.lockDepth, .cmdEv kind input st.lockDepth] }) := by
  have hsel' : ¬ c.selectRes st.nSelect < 0 := by rw [hsel]; decide
  simp only [SC_SUCCESS] at hsel henv
  simp only [DevState.nSelect] at hsel
  simp only [DevState.nSetEnv] at henv
  simp only [DevState.nSelect, SC_SUCCESS] at hsel'
  unfold use_key_attempt select_key_file
  rw [hpn]
  simp only [get_file_path, hk, if_true]
  rcases hshape with ⟨h0, ha⟩ | ⟨h2, happ⟩ | hgt
  · have h0l : obj.path.value = [] := List.eq_nil_of_length_eq_zero h0
    have hal : ¬obj.path.aid = [] := fun h => ha (by simp [h])
    refine ⟨senv, ?_⟩
    simp [h0l, hal, hsel, hsel', henv, sc_select_file, sc_set_security_env,
      card_command, DevState.nSelect, DevState.nSetEnv, DevState.nCmd,
      DevEvent.isSelect, DevEvent.isSetEnv, DevEvent.isCmd, SC_SUCCESS,
      List.filter_append, List.append_assoc]
  · have h0' : ¬ (obj.path.value.length = 0 ∧ obj.path.aid.length ≠ 0) := by
      rintro ⟨h, -⟩; omega
    have hne : ¬(obj.path.value = [] ∧ ¬obj.path.aid = []) := by
      rintro ⟨h, -⟩
      rw [h] at h2
      simp at h2
    refine ⟨{ senv with file_ref := obj.path
                      , flags := senv.flags ||| SC_SEC_ENV_FILE_REF_PRESENT }, ?_⟩
    simp [hne, h2, happ, hsel, hsel', henv, sc_select_file, sc_set_security_env,
      card_command, DevState.nSelect, DevState.nSetEnv, DevState.nCmd,
      DevEvent.isSelect, DevEvent.isSetEnv, DevEvent.isCmd, SC_SUCCESS,
      List.filter_append, List.append_assoc]
  · have h0' : ¬ (obj.path.value.length = 0 ∧ obj.path.aid.length ≠ 0) := by
      rintro ⟨h, -⟩; omega
    have h2' : ¬ (obj.path.value.length = 2 ∧ c.file_app.isSome = true) := by
      rintro ⟨h, -⟩; omega
    have hne : ¬(obj.path.value = [] ∧ ¬obj.path.aid = []) := by
      rintro ⟨h, -⟩
      rw [h] at hgt
      simp at hgt
    have h2ne : ¬obj.path.value.length = 2 := by omega
    refine ⟨{ senv with
                file_ref := ⟨obj.path.value.drop (obj.path.value.length - 2), []⟩
              , flags := senv.flags ||| SC_SEC_ENV_FILE_REF_PRESENT }, ?_⟩
    simp [hne, h2ne, hgt, hsel, hsel', henv, sc_select_file, sc_set_security_env,
      card_command, DevState.nSelect, DevState.nSetEnv, DevState.nCmd,
      DevEvent.isSelect, DevEvent.isSetEnv, DevEvent.isCmd, SC_SUCCESS,
      List.filter_append, List.append_assoc]

/-- Evaluation of one dispatcher attempt for a key without an on-device
location (nothing to select): the environment push happens directly. -/
theorem use_key_attempt_nopath (c : P15Card) (obj : P15Object) (senv : SecurityEnv)
    (kind : CmdKind) (input out : List Nat) (path : ScPath) (st : DevState)
    (hpn : pathNonzero path = false)
    (henv : c.setEnvRes st.nSetEnv = SC_SUCCESS) :
    use_key_attempt c obj senv kind input out SC_SUCCESS path st =
      (c.cmdRes kind (st.nCmd kind), senv,
       overwriteFront out (c.cmdOut kind (st.nCmd kind)),
       { st with events := st.events ++
           [.setEnvEv st.lockDepth, .cmdEv kind input st.lockDepth] }) := by
  simp only [SC_SUCCESS] at henv
  simp only [DevState.nSetEnv] at henv
  unfold use_key_attempt
  rw [hpn]
  simp [henv, sc_set_security_env, card_command, DevState.nSetEnv, DevState.nCmd,
    DevEvent.isCmd, DevEvent.isSetEnv, SC_SUCCESS, List.filter_append,
    List.append_assoc]

/-- Evaluation of the whole dispatcher for a key without a location,
when the lock is granted, the environment push succeeds and the card
primitive answers anything other than security-status-not-satisfied:
one set-env, one invocation, lock released. -/
theorem use_key_eval_nopath (c : P15Card) (obj : P15Object) (senv : SecurityEnv)
    (kind : CmdKind) (input out : List Nat) (st : DevState)
    (hk : (obj.objType.isPrkey || obj.objType.isSkey) = true)
    (hp : obj.path = ⟨[], []⟩)
    (hlock : c.lockRes st.lockCalls = SC_SUCCESS)
    (henv : c.setEnvRes st.nSetEnv = SC_SUCCESS)
    (hnot : c.cmdRes kind (st.nCmd kind) ≠ SC_ERROR_SECURITY_STATUS_NOT_SATISFIED) :
    use_key c obj senv kind input out st =
      (c.cmdRes kind (st.nCmd kind), senv,
       overwriteFront out (c.cmdOut kind (st.nCmd kind)),
       { st with lockCalls := st.lockCalls + 1
               , events := st.events ++
                   [.setEnvEv (st.lockDepth + 1), .cmdEv kind input (st.lockDepth + 1)] }) := by
  have hpn : pathNonzero obj.path = false := by simp [hp, pathNonzero]
  have hlock' : sc_lock c st =
      (SC_SUCCESS, { st with lockCalls := st.lockCalls + 1
                           , lockDepth := st.lockDepth + 1 }) := by
    simp [sc_lock, hlock]
  have hatt := use_key_attempt_nopath c obj senv kind input out obj.path
      { st with lockCalls := st.lockCalls + 1, lockDepth := st.lockDepth + 1 } hpn
      (by simpa [DevState.nSetEnv] using henv)
  simp only [SC_SUCCESS] at hlock' hatt
  unfold use_key
  simp only [get_file_path, hk, if_true]
  rw [hlock']
  rw [if_neg (by decide : ¬ (0 : Int) < 0)]
  dsimp only
  simp only [SC_SUCCESS]
  rw [hatt]
  dsimp only
  rw [if_neg (by simpa [DevState.nCmd] using hnot)]
  simp [sc_unlock, DevState.nCmd]

/-! ## Claim C1 -/

/-- Claim C1: for every operation routed through the dispatcher
(`use_key` serves decipher, derive, sign, wrap and unwrap — `kind` is
universally quantified), if the device primitive fails with
security-status-not-satisfied on the first attempt and the cached-PIN
revalidation succeeds, the whole select/set-environment/invoke sequence
is re-run exactly once (two selects, two environment pushes, two
primitive invocations in the final trace), the second attempt's result
is returned unchanged (in particular a second
security-status-not-satisfied failure is surfaced as-is), there is no
further retry, and the lock is released. -/
theorem claim_C1_retry_once (c : P15Card) (obj : P15Object) (senv : SecurityEnv)
    (kind : CmdKind) (input out : List Nat)
    (hk : (obj.objType.isPrkey || obj.objType.isSkey) = true)
    (hpn : pathNonzero obj.path = true)
    (hshape : pathShapeOk c obj.path)
    (hlock : c.lockRes 0 = SC_SUCCESS)
    (hsel0 : c.selectRes 0 = SC_SUCCESS) (hsel1 : c.selectRes 1 = SC_SUCCESS)
    (henv0 : c.setEnvRes 0 = SC_SUCCESS) (henv1 : c.setEnvRes 1 = SC_SUCCESS)
    (hcmd0 : c.cmdRes kind 0 = SC_ERROR_SECURITY_STATUS_NOT_SATISFIED)
    (hrv : 0 ≤ c.revalRes 0) :
    (use_key c obj senv kind input out DevState.init).1 = c.cmdRes kind 1 ∧
    (use_key c obj senv kind input out DevState.init).2.2.2.nCmd kind = 2 ∧
    (use_key c obj senv kind input out DevState.init).2.2.2.nSelect = 2 ∧
    (use_key c obj senv kind input out DevState.init).2.2.2.nSetEnv = 2 ∧
    (use_key c obj senv kind input out DevState.init).2.2.2.nReval = 1 ∧
    (use_key c obj senv kind input out DevState.init).2.2.2.lockDepth = 0 := by
  have hlock' : sc_lock c DevState.init = (SC_SUCCESS, ⟨1, 1, []⟩) := by
    simp [sc_lock, DevState.init, hlock]
  obtain ⟨senv1, hatt1⟩ := use_key_attempt_ok c obj senv kind input out SC_SUCCESS
    ⟨1, 1, []⟩ hk hpn hshape (by simpa [DevState.nSelect] using hsel0)
    (by simpa [DevState.nSetEnv] using henv0)
  have h1 : use_key_attempt c obj senv kind input out SC_SUCCESS obj.path ⟨1, 1, []⟩ =
      (SC_ERROR_SECURITY_STATUS_NOT_SATISFIED, senv1,
       overwriteFront out (c.cmdOut kind 0),
       ⟨1, 1, [.selectEv 1, .setEnvEv 1, .cmdEv kind input 1]⟩) := by
    rw [hatt1]
    simp [DevState.nCmd, hcmd0]
  have h2 : sc_pkcs15_pincache_revalidate c
      ⟨1, 1, [.selectEv 1, .setEnvEv 1, .cmdEv kind input 1]⟩ =
      (c.revalRes 0,
       ⟨1, 1, [.selectEv 1, .setEnvEv 1, .cmdEv kind input 1, .revalEv 1]⟩) := by
    simp [sc_pkcs15_pincache_revalidate, DevState.nReval, DevEvent.isReval]
  obtain ⟨senv2, hatt2⟩ := use_key_attempt_ok c obj senv1 kind input
    (overwriteFront out (c.cmdOut kind 0)) (c.revalRes 0)
    ⟨1, 1, [.selectEv 1, .setEnvEv 1, .cmdEv kind input 1, .revalEv 1]⟩ hk hpn hshape
    (by simpa [DevState.nSelect, DevEvent.isSelect] using hsel1)
    (by simpa [DevState.nSetEnv, DevEvent.isSetEnv] using henv1)
  have h3 : use_key_attempt c obj senv1 kind input
      (overwriteFront out (c.cmdOut kind 0)) (c.revalRes 0) obj.path
      ⟨1, 1, [.selectEv 1, .setEnvEv 1, .cmdEv kind input 1, .revalEv 1]⟩ =
      (c.cmdRes kind 1, senv2,
       overwriteFront (overwriteFront out (c.cmdOut kind 0)) (c.cmdOut kind 1),
       ⟨1, 1, [.selectEv 1, .setEnvEv 1, .cmdEv kind input 1, .revalEv 1,
               .selectEv 1, .setEnvEv 1, .cmdEv kind input 1]⟩) := by
    rw [hatt2]
    simp [DevState.nCmd, DevEvent.isCmd]
  have hmain : use_key c obj senv kind input out DevState.init =
      (c.cmdRes kind 1, senv2,
       overwriteFront (overwriteFront out (c.cmdOut kind 0)) (c.cmdOut kind 1),
       ⟨0, 1, [.selectEv 1, .setEnvEv 1, .cmdEv kind input 1, .revalEv 1,
               .selectEv 1, .setEnvEv 1, .cmdEv kind input 1]⟩) := by
    unfold use_key
    simp only [get_file_path, hk, if_true]
    rw [hlock']
    rw [if_neg (by decide : ¬ SC_SUCCESS < 0)]
    dsimp only
    rw [h1]
    dsimp only
    rw [if_pos rfl]
    rw [h2]
    dsimp only
    rw [if_neg (by omega : ¬ c.revalRes 0 < 0)]
    rw [h3]
    dsimp only
    simp [sc_unlock]
  rw [hmain]
  refine ⟨rfl, ?_, ?_, ?_, ?_, rfl⟩ <;>
    simp [DevState.nCmd, DevState.nSelect, DevState.nSetEnv, DevState.nReval,
      DevEvent.isCmd, DevEvent.isSelect, DevEvent.isSetEnv, DevEvent.isReval]

/-- Witness for claim C1 at a concrete card and key. -/
theorem claim_C1_witness :
    (use_key
        { file_app := none, supported_algos := [],
          find_rsa_alg := fun _ => none, find_gostr3410_alg := fun _ => none,
          find_eddsa_alg := fun _ => none, find_xeddsa_alg := fun _ => none,
          find_ec_alg := fun _ => none, find_aes_alg := fun _ => none,
          get_encoding_flags := fun _ _ => .ok (0, 0),
          lockRes := fun _ => 0, selectRes := fun _ => 0, setEnvRes := fun _ => 0,
          cmdRes := fun _ i => if i = 0 then SC_ERROR_SECURITY_STATUS_NOT_SATISFIED else 7,
          cmdOut := fun _ _ => [], revalRes := fun _ => 0, allocOk := true,
          pkcs1_encode := fun _ d _ => .ok d,
          strip_02 := fun _ d => (0, d),
          strip_digest_info := fun d => .ok (0, d) }
        { objType := .prkeyRsa, usage := 4, native := true, keyReference := -1,
          modulusLength := 1024, fieldLength := 0, valueLen := 0, keyType := 0,
          path := ⟨[0x3F, 0x00, 0x2F, 0x05], []⟩ }
        SecurityEnv.empty .sign [1, 2] [0, 0] DevState.init).1 = 7 := by
  have h := claim_C1_retry_once
    { file_app := none, supported_algos := [],
      find_rsa_alg := fun _ => none, find_gostr3410_alg := fun _ => none,
      find_eddsa_alg := fun _ => none, find_xeddsa_alg := fun _ => none,
      find_ec_alg := fun _ => none, find_aes_alg := fun _ => none,
      get_encoding_flags := fun _ _ => .ok (0, 0),
      lockRes := fun _ => 0, selectRes := fun _ => 0, setEnvRes := fun _ => 0,
      cmdRes := fun _ i => if i = 0 then SC_ERROR_SECURITY_STATUS_NOT_SATISFIED else 7,
      cmdOut := fun _ _ => [], revalRes := fun _ => 0, allocOk := true,
      pkcs1_encode := fun _ d _ => .ok d,
      strip_02 := fun _ d => (0, d),
      strip_digest_info := fun d => .ok (0, d) }
    { objType := .prkeyRsa, usage := 4, native := true, keyReference := -1,
      modulusLength := 1024, fieldLength := 0, valueLen := 0, keyType := 0,
      path := ⟨[0x3F, 0x00, 0x2F, 0x05], []⟩ }
    SecurityEnv.empty .sign [1, 2] [0, 0]
    (by decide) (by decide) (by decide) (by decide) (by decide) (by decide)
    (by decide) (by decide) (by decide) (by decide)
  exact h.1.trans (by decide)

/-! ## Claim C10 -/

/-- Claim C10: in the dispatcher's retry machine, if the device
primitive fails with security-status-not-satisfied and the cached-PIN
revalidation itself then fails, the call returns the revalidation's
error code (not the original security-status-not-satisfied error) and
the select/push/invoke sequence is not retried: the final trace holds
exactly one select, one environment push, one invocation and one
revalidation attempt, and the lock is released. -/
theorem claim_C10_reval_fail (c : P15Card) (obj : P15Object) (senv : SecurityEnv)
    (kind : CmdKind) (input out : List Nat)
    (hk : (obj.objType.isPrkey || obj.objType.isSkey) = true)
    (hpn : pathNonzero obj.path = true)
    (hshape : pathShapeOk c obj.path)
    (hlock : c.lockRes 0 = SC_SUCCESS)
    (hsel0 : c.selectRes 0 = SC_SUCCESS)
    (henv0 : c.setEnvRes 0 = SC_SUCCESS)
    (hcmd0 : c.cmdRes kind 0 = SC_ERROR_SECURITY_STATUS_NOT_SATISFIED)
    (hrv : c.revalRes 0 < 0) :
    (use_key c obj senv kind input out DevState.init).1 = c.revalRes 0 ∧
    (use_key c obj senv kind input out DevState.init).2.2.2.nCmd kind = 1 ∧
    (use_key c obj senv kind input out DevState.init).2.2.2.nSelect = 1 ∧
    (use_key c obj senv kind input out DevState.init).2.2.2.nSetEnv = 1 ∧
    (use_key c obj senv kind input out DevState.init).2.2.2.nReval = 1 ∧
    (use_key c obj senv kind input out DevState.init).2.2.2.lockDepth = 0 := by
  have hlock' : sc_lock c DevState.init = (SC_SUCCESS, ⟨1, 1, []⟩) := by
    simp [sc_lock, DevState.init, hlock]
  obtain ⟨senv1, hatt1⟩ := use_key_attempt_ok c obj senv kind input out SC_SUCCESS
    ⟨1, 1, []⟩ hk hpn hshape (by simpa [DevState.nSelect] using hsel0)
    (by simpa [DevState.nSetEnv] using henv0)
  have h1 : use_key_attempt c obj senv kind input out SC_SUCCESS obj.path ⟨1, 1, []⟩ =
      (SC_ERROR_SECURITY_STATUS_NOT_SATISFIED, senv1,
       overwriteFront out (c.cmdOut kind 0),
       ⟨1, 1, [.selectEv 1, .setEnvEv 1, .cmdEv kind input 1]⟩) := by
    rw [hatt1]
    simp [DevState.nCmd, hcmd0]
  have h2 : sc_pkcs15_pincache_revalidate c
      ⟨1, 1, [.selectEv 1, .setEnvEv 1, .cmdEv kind input 1]⟩ =
      (c.revalRes 0,
       ⟨1, 1, [.selectEv 1, .setEnvEv 1, .cmdEv kind input 1, .revalEv 1]⟩) := by
    simp [sc_pkcs15_pincache_revalidate, DevState.nReval, DevEvent.isReval]
  have hmain : use_key c obj senv kind input out DevState.init =
      (c.revalRes 0, senv1, overwriteFront out (c.cmdOut kind 0),
       ⟨0, 1, [.selectEv 1, .setEnvEv 1, .cmdEv kind input 1, .revalEv 1]⟩) := by
    unfold use_key
    simp only [get_file_path, hk, if_true]
    rw [hlock']
    rw [if_neg (by decide : ¬ SC_SUCCESS < 0)]
    dsimp only
    rw [h1]
    dsimp only
    rw [if_pos rfl]
    rw [h2]
    dsimp only
    rw [if_pos hrv]
    simp [sc_unlock]
  rw [hmain]
  refine ⟨rfl, ?_, ?_, ?_, ?_, rfl⟩ <;>
    simp [DevState.nCmd, DevState.nSelect, DevState.nSetEnv, DevState.nReval,
      DevEvent.isCmd, DevEvent.isSelect, DevEvent.isSetEnv, DevEvent.isReval]

/-- Witness for claim C10 at a concrete card and key. -/
theorem claim_C10_witness :
    (use_key
        { file_app := none, supported_algos := [],
          find_rsa_alg := fun _ => none, find_gostr3410_alg := fun _ => none,
          find_eddsa_alg := fun _ => none, find_xeddsa_alg := fun _ => none,
          find_ec_alg := fun _ => none, find_aes_alg := fun _ => none,
          get_encoding_flags := fun _ _ => .ok (0, 0),
          lockRes := fun _ => 0, selectRes := fun _ => 0, setEnvRes := fun _ => 0,
          cmdRes := fun _ _ => SC_ERROR_SECURITY_STATUS_NOT_SATISFIED,
          cmdOut := fun _ _ => [], revalRes := fun _ => -9, allocOk := true,
          pkcs1_encode := fun _ d _ => .ok d,
          strip_02 := fun _ d => (0, d),
          strip_digest_info := fun d => .ok (0, d) }
        { objType := .prkeyRsa, usage := 4, native := true, keyReference := -1,
          modulusLength := 1024, fieldLength := 0, valueLen := 0, keyType := 0,
          path := ⟨[0x3F, 0x00, 0x2F, 0x05], []⟩ }
        SecurityEnv.empty .sign [1, 2] [0, 0] DevState.init).1 = -9 := by
  have h := claim_C10_reval_fail
    { file_app := none, supported_algos := [],
      find_rsa_alg := fun _ => none, find_gostr3410_alg := fun _ => none,
      find_eddsa_alg := fun _ => none, find_xeddsa_alg := fun _ => none,
      find_ec_alg := fun _ => none, find_aes_alg := fun _ => none,
      get_encoding_flags := fun _ _ => .ok (0, 0),
      lockRes := fun _ => 0, selectRes := fun _ => 0, setEnvRes := fun _ => 0,
      cmdRes := fun _ _ => SC_ERROR_SECURITY_STATUS_NOT_SATISFIED,
      cmdOut := fun _ _ => [], revalRes := fun _ => -9, allocOk := true,
      pkcs1_encode := fun _ d _ => .ok d,
      strip_02 := fun _ d => (0, d),
      strip_digest_info := fun d => .ok (0, d) }
    { objType := .prkeyRsa, usage := 4, native := true, keyReference := -1,
      modulusLength := 1024, fieldLength := 0, valueLen := 0, keyType := 0,
      path := ⟨[0x3F, 0x00, 0x2F, 0x05], []⟩ }
    SecurityEnv.empty .sign [1, 2] [0, 0]
    (by decide) (by decide) (by decide) (by decide) (by decide) (by decide)
    (by decide) (by decide)
  exact h.1.trans (by decide)

/-! ## A concrete all-success card for witnesses and counterexamples -/

/-- A simple concrete card: every device call succeeds with 0, every
capability lookup finds a plain entry, padding helpers are identity. -/
def cardA : P15Card :=
  { file_app := none
  , supported_algos := []
  , find_rsa_alg := fun _ => some ⟨0, 1024⟩
  , find_gostr3410_alg := fun _ => some ⟨0, 256⟩
  , find_eddsa_alg := fun _ => some ⟨0, 256⟩
  , find_xeddsa_alg := fun _ => some ⟨0, 256⟩
  , find_ec_alg := fun _ => some ⟨0, 256⟩
  , find_aes_alg := fun _ => some ⟨0, 256⟩
  , get_encoding_flags := fun _ _ => .ok (0, 0)
  , lockRes := fun _ => 0
  , selectRes := fun _ => 0
  , setEnvRes := fun _ => 0
  , cmdRes := fun _ _ => 0
  , cmdOut := fun _ _ => []
  , revalRes := fun _ => 0
  , allocOk := true
  , pkcs1_encode := fun _ d _ => .ok d
  , strip_02 := fun _ d => (0, d)
  , strip_digest_info := fun d => .ok (0, d) }

/-! ## Claim C2 -/

/-- Claim C2 (code bug): a symmetric-encryption "begin" call runs its
whole select-file / set-security-environment / invoke sequence with
the device lock never acquired: every recorded event carries lock
depth 0 and `sc_lock` is invoked zero times.  The source contains the
`LOG_TEST_RET(ctx, r, "sc_lock() failed")` check of `use_key`'s
locking discipline but the `sc_lock`/`sc_unlock` calls themselves are
missing, so the check tests a stale `r` and never fires.  (The
dispatcher `use_key` itself does hold and release the lock, as the
traces in the claim C1 and C10 theorems show.) -/
theorem claim_C2_sym_lock_missing :
    (sc_pkcs15_encrypt_sym
        { cardA with find_aes_alg := fun _ => some ⟨0, 256⟩
                   , get_encoding_flags := fun _ _ => .ok (0, SC_ALGORITHM_AES_CBC) }
        { objType := .skeyGeneric, usage := SC_PKCS15_PRKEY_USAGE_ENCRYPT
        , native := true, keyReference := -1, modulusLength := 0, fieldLength := 0
        , valueLen := 32, keyType := CKK_AES
        , path := ⟨[0x3F, 0x00, 0x2F, 0x01], []⟩ }
        SC_ALGORITHM_AES_CBC [7, 7] false (some [1, 2, 3, 4]) 4
        DevState.init).2.events =
      [.selectEv 0, .setEnvEv 0, .cmdEv .encryptSym [7, 7] 0] ∧
    (sc_pkcs15_encrypt_sym
        { cardA with find_aes_alg := fun _ => some ⟨0, 256⟩
                   , get_encoding_flags := fun _ _ => .ok (0, SC_ALGORITHM_AES_CBC) }
        { objType := .skeyGeneric, usage := SC_PKCS15_PRKEY_USAGE_ENCRYPT
        , native := true, keyReference := -1, modulusLength := 0, fieldLength := 0
        , valueLen := 32, keyType := CKK_AES
        , path := ⟨[0x3F, 0x00, 0x2F, 0x01], []⟩ }
        SC_ALGORITHM_AES_CBC [7, 7] false (some [1, 2, 3, 4]) 4
        DevState.init).2.lockCalls = 0 := by
  constructor <;> rfl

/-! ## Claim C3 -/

/-- Counterexample to claim C3 as stated: a derive call on an EC key
whose `native` flag is false, with the derive usage bit set and a null
output buffer, returns a zero-length success (the size-query answer,
with the required 32 bytes reported), not not-supported — the size
query is checked before the native gate.  No device interaction
happens, but the returned code differs from the claimed one. -/
theorem claim_C3_counterexample :
    (sc_pkcs15_derive cardA
        { objType := .prkeyEc, usage := SC_PKCS15_PRKEY_USAGE_DERIVE
        , native := false, keyReference := -1, modulusLength := 0
        , fieldLength := 256, valueLen := 0, keyType := 0
        , path := ⟨[], []⟩ } 0 [1] none 0 DevState.init) =
      (0, 32, DevState.init) ∧
    (0 : Int) ≠ SC_ERROR_NOT_SUPPORTED := by
  constructor
  · rfl
  · decide

/-- `format_senv` on a non-native key object rejects with
not-supported before any capability lookup. -/
theorem format_senv_nonnative (c : P15Card) (obj : P15Object)
    (hk : (obj.objType.isPrkey || obj.objType.isSkey) = true)
    (hnative : obj.native = false) :
    format_senv c obj = .error SC_ERROR_NOT_SUPPORTED := by
  unfold format_senv
  rw [hk]
  simp [hnative]

/-- Claim C3 (amended): for every operation handler and every key whose
native flag is false, when the handler's usage precheck passes the call
returns not-supported and performs no device interaction (the device
state is returned unchanged) — except the derive size-query path: on an
EC or XEdDSA key with an absent or undersized buffer, derive answers
the size query (zero-length success) before the native check, also
with no device interaction; with a sufficient buffer derive returns
not-supported as claimed. -/
theorem claim_C3_amended (c : P15Card) (obj target_key : P15Object) (flags : Nat)
    (input out : List Nat) (outOpt : Option (List Nat)) (poutlen : Nat)
    (cryptogram : Option (List Nat)) (crgram_len : Option Nat)
    (param : Option (List Nat)) (paramlen : Nat) (outlenPresent : Bool)
    (st : DevState)
    (hk : (obj.objType.isPrkey || obj.objType.isSkey) = true)
    (hnative : obj.native = false) :
    (obj.usage &&& (SC_PKCS15_PRKEY_USAGE_DECRYPT ||| SC_PKCS15_PRKEY_USAGE_UNWRAP) ≠ 0 →
      sc_pkcs15_decipher c obj flags input out st = (SC_ERROR_NOT_SUPPORTED, out, st)) ∧
    (obj.usage &&& (SC_PKCS15_PRKEY_USAGE_SIGN ||| SC_PKCS15_PRKEY_USAGE_SIGNRECOVER |||
        SC_PKCS15_PRKEY_USAGE_NONREPUDIATION) ≠ 0 →
      sc_pkcs15_compute_signature c obj flags input out st = (SC_ERROR_NOT_SUPPORTED, out, st)) ∧
    (obj.usage &&& SC_PKCS15_PRKEY_USAGE_DERIVE ≠ 0 →
      ((obj.objType = .prkeyEc ∨ obj.objType = .prkeyXeddsa) →
        ((outOpt = none ∨ poutlen < bytes4bits obj.fieldLength) →
          sc_pkcs15_derive c obj flags input outOpt poutlen st =
            (0, bytes4bits obj.fieldLength, st)) ∧
        (outOpt ≠ none → bytes4bits obj.fieldLength ≤ poutlen →
          sc_pkcs15_derive c obj flags input outOpt poutlen st =
            (SC_ERROR_NOT_SUPPORTED, poutlen, st))) ∧
      (¬(obj.objType = .prkeyEc ∨ obj.objType = .prkeyXeddsa) →
        sc_pkcs15_derive c obj flags input outOpt poutlen st =
          (SC_ERROR_NOT_SUPPORTED, poutlen, st))) ∧
    (obj.usage &&& SC_PKCS15_PRKEY_USAGE_UNWRAP ≠ 0 →
      sc_pkcs15_unwrap c obj target_key flags input param paramlen st =
        (SC_ERROR_NOT_SUPPORTED, st)) ∧
    (obj.usage &&& SC_PKCS15_PRKEY_USAGE_WRAP ≠ 0 →
      sc_pkcs15_wrap c obj target_key flags cryptogram crgram_len param paramlen st =
        (SC_ERROR_NOT_SUPPORTED, crgram_len, st)) ∧
    (obj.usage &&& SC_PKCS15_PRKEY_USAGE_ENCRYPT ≠ 0 →
      sc_pkcs15_encrypt_sym c obj flags input outlenPresent param paramlen st =
        (SC_ERROR_NOT_SUPPORTED, st)) ∧
    (obj.usage &&& SC_PKCS15_PRKEY_USAGE_DECRYPT ≠ 0 →
      sc_pkcs15_decrypt_sym c obj flags input outlenPresent param paramlen st =
        (SC_ERROR_NOT_SUPPORTED, st)) := by
  have hfs := format_senv_nonnative c obj hk hnative
  refine ⟨?_, ?_, ?_, ?_, ?_, ?_, ?_⟩
  · intro hu
    simp [sc_pkcs15_decipher, hu, hfs]
  · intro hu
    simp [sc_pkcs15_compute_signature, hu, hfs]
  · intro hu
    constructor
    · intro htype
      constructor
      · intro hbuf
        simp [sc_pkcs15_derive, hu, htype, hbuf]
      · intro hsome hge
        have hbuf : ¬(outOpt = none ∨ poutlen < bytes4bits obj.fieldLength) := by
          push_neg
          exact ⟨hsome, by omega⟩
        simp [sc_pkcs15_derive, hu, htype, hbuf, hfs]
    · intro htype
      simp [sc_pkcs15_derive, hu, htype]
  · intro hu
    cases hty : obj.objType <;>
      simp_all [sc_pkcs15_unwrap, ObjType.isPrkey, ObjType.isSkey, hfs]
  · intro hu
    by_cases htk : target_key.objType = ObjType.prkeyRsa ∨ target_key.objType.isSkey = true <;>
      cases hty : obj.objType <;>
        simp_all [sc_pkcs15_wrap, ObjType.isPrkey, ObjType.isSkey, hfs]
  · intro hu
    simp [sc_pkcs15_encrypt_sym, hu, hfs]
  · intro hu
    simp [sc_pkcs15_decrypt_sym, hu, hfs]

/-- Witness for claim C3 (amended) at a concrete non-native RSA key:
the decipher handler answers not-supported without touching the device. -/
theorem claim_C3_witness :
    sc_pkcs15_decipher cardA
      { objType := .prkeyRsa, usage := 0x3FF, native := false, keyReference := -1
      , modulusLength := 1024, fieldLength := 0, valueLen := 0, keyType := 0
      , path := ⟨[], []⟩ } 0 [1] [0] DevState.init =
      (SC_ERROR_NOT_SUPPORTED, [0], DevState.init) :=
  (claim_C3_amended cardA
    { objType := .prkeyRsa, usage := 0x3FF, native := false, keyReference := -1
    , modulusLength := 1024, fieldLength := 0, valueLen := 0, keyType := 0
    , path := ⟨[], []⟩ }
    { objType := .prkeyRsa, usage := 0x3FF, native := false, keyReference := -1
    , modulusLength := 1024, fieldLength := 0, valueLen := 0, keyType := 0
    , path := ⟨[], []⟩ }
    0 [1] [0] none 0 none none none 0 false DevState.init
    (by decide) rfl).1 (by decide)

/-! ## Claim C4 -/

/-- Claim C4: on a derive call for an EC or XEdDSA key with the derive
usage bit set, (a) an absent or undersized output buffer makes the call
report the field byte length as required size and return a zero-length
(no-data) success with the device state untouched — the check precedes
any device interaction; (b) with a sufficient buffer the device call is
performed (one environment push and one decipher-primitive invocation
appear in the trace) and the output length is set to the number of
bytes the device returned. -/
theorem claim_C4_derive_two_phase (c : P15Card) (obj : P15Object) (flags : Nat)
    (input buf : List Nat) (outOpt : Option (List Nat)) (poutlen : Nat)
    (st : DevState) (senv0 : SecurityEnv) (ai : AlgInfo) (pf sf : Nat) (n : Int)
    (husage : obj.usage &&& SC_PKCS15_PRKEY_USAGE_DERIVE ≠ 0)
    (htype : obj.objType = .prkeyEc ∨ obj.objType = .prkeyXeddsa) :
    ((outOpt = none ∨ poutlen < bytes4bits obj.fieldLength) →
      sc_pkcs15_derive c obj flags input outOpt poutlen st =
        (0, bytes4bits obj.fieldLength, st)) ∧
    (outOpt = some buf → bytes4bits obj.fieldLength ≤ poutlen →
      format_senv c obj = .ok (senv0, ai) →
      c.get_encoding_flags flags ai.flags = .ok (pf, sf) →
      obj.path = ⟨[], []⟩ →
      c.lockRes st.lockCalls = SC_SUCCESS →
      c.setEnvRes st.nSetEnv = SC_SUCCESS →
      c.cmdRes .decipher (st.nCmd .decipher) = n →
      0 ≤ n →
      sc_pkcs15_derive c obj flags input outOpt poutlen st =
        (n, n.toNat,
         { st with lockCalls := st.lockCalls + 1
                 , events := st.events ++
                     [.setEnvEv (st.lockDepth + 1),
                      .cmdEv .decipher input (st.lockDepth + 1)] })) := by
  constructor
  · intro hbuf
    simp [sc_pkcs15_derive, husage, htype, hbuf]
  · intro hsome hge hform henc hp hlock henv hcmd hn
    have hk : (obj.objType.isPrkey || obj.objType.isSkey) = true := by
      rcases htype with h | h <;> simp [h, ObjType.isPrkey]
    have hbuf : ¬(outOpt = none ∨ poutlen < bytes4bits obj.fieldLength) := by
      push_neg
      exact ⟨by simp [hsome], by omega⟩
    have hnot : c.cmdRes .decipher (st.nCmd .decipher) ≠
        SC_ERROR_SECURITY_STATUS_NOT_SATISFIED := by
      rw [hcmd]
      simp only [SC_ERROR_SECURITY_STATUS_NOT_SATISFIED]
      omega
    unfold sc_pkcs15_derive
    rw [if_neg husage, if_neg (not_not_intro htype), if_neg hbuf, hform]
    dsimp only
    rw [henc]
    dsimp only
    rw [use_key_eval_nopath c obj _ .decipher input (outOpt.getD []) st hk hp hlock henv hnot]
    dsimp only
    rw [hcmd]
    rw [if_neg (by omega : ¬ n < 0)]

/-- Witness for claim C4, both phases, at a concrete EC key: the size
query reports 32 bytes with no device call; the sufficient-buffer call
returns the 32 bytes the device produced after one device sequence. -/
theorem claim_C4_witness :
    (sc_pkcs15_derive { cardA with cmdRes := fun _ _ => 32 }
        { objType := .prkeyEc, usage := SC_PKCS15_PRKEY_USAGE_DERIVE
        , native := true, keyReference := -1, modulusLength := 0
        , fieldLength := 256, valueLen := 0, keyType := 0, path := ⟨[], []⟩ }
        0 [9] none 0 DevState.init = (0, 32, DevState.init)) ∧
    (sc_pkcs15_derive { cardA with cmdRes := fun _ _ => 32 }
        { objType := .prkeyEc, usage := SC_PKCS15_PRKEY_USAGE_DERIVE
        , native := true, keyReference := -1, modulusLength := 0
        , fieldLength := 256, valueLen := 0, keyType := 0, path := ⟨[], []⟩ }
        0 [9] (some (List.replicate 32 0)) 32 DevState.init =
      (32, 32, ⟨0, 1, [.setEnvEv 1, .cmdEv .decipher [9] 1]⟩)) := by
  have h := claim_C4_derive_two_phase { cardA with cmdRes := fun _ _ => 32 }
    { objType := .prkeyEc, usage := SC_PKCS15_PRKEY_USAGE_DERIVE
    , native := true, keyReference := -1, modulusLength := 0
    , fieldLength := 256, valueLen := 0, keyType := 0, path := ⟨[], []⟩ }
    0 [9] (List.replicate 32 0) (some (List.replicate 32 0)) 32 DevState.init
    { (SecurityEnv.empty) with algorithm := SC_ALGORITHM_EC
                             , key_size_bits := 256
                             , flags := SC_SEC_ENV_ALG_REF_PRESENT ||| SC_SEC_ENV_ALG_PRESENT
                             , algorithm_ref := 256 }
    ⟨0, 256⟩ 0 0 32 (by decide) (Or.inl rfl)
  have h2 := claim_C4_derive_two_phase { cardA with cmdRes := fun _ _ => 32 }
    { objType := .prkeyEc, usage := SC_PKCS15_PRKEY_USAGE_DERIVE
    , native := true, keyReference := -1, modulusLength := 0
    , fieldLength := 256, valueLen := 0, keyType := 0, path := ⟨[], []⟩ }
    0 [9] (List.replicate 32 0) none 0 DevState.init SecurityEnv.empty
    ⟨0, 256⟩ 0 0 32 (by decide) (Or.inl rfl)
  refine ⟨h2.1 (Or.inl rfl), ?_⟩
  have := h.2 rfl (by decide) (by rfl) (by rfl) rfl (by rfl) (by rfl) (by rfl) (by decide)
  simpa using this

/-! ## Claim C5 -/

/-- Claim C5: on the first successful initialize exactly one locking
regime is selected by the rule table — caller-supplied primitives with
OS locking acceptable select the caller's primitives; no caller
primitives with OS locking acceptable select the built-in OS-backed
primitives; caller primitives without OS locking select the caller's
primitives; neither selects the built-in primitives — and a failure of
the selected table's CreateMutex is returned by `sc_pkcs11_init_lock`
and makes `C_Initialize` fail with that same error. -/
theorem claim_C5_locking_table (a : InitArgs) (createMutexRv : Nat)
    (ctxOk sesOk slotOk : Bool)
    (hres : a.pReservedSet = false) :
    (argsApplock a = true → argsOslock a = true →
      (sc_pkcs11_init_lock (some a) createMutexRv).2 = .appLock) ∧
    (argsApplock a = false → argsOslock a = true →
      (sc_pkcs11_init_lock (some a) createMutexRv).2 = .osLock) ∧
    (argsApplock a = true → argsOslock a = false →
      (sc_pkcs11_init_lock (some a) createMutexRv).2 = .appLock) ∧
    (argsApplock a = false → argsOslock a = false →
      (sc_pkcs11_init_lock (some a) createMutexRv).2 = .osLock) ∧
    (createMutexRv ≠ CKR_OK →
      (sc_pkcs11_init_lock (some a) createMutexRv).1 = createMutexRv ∧
      C_Initialize false (some a) createMutexRv ctxOk sesOk slotOk = createMutexRv ∧
      C_Initialize false (some a) createMutexRv ctxOk sesOk slotOk ≠ CKR_OK) := by
  refine ⟨?_, ?_, ?_, ?_, ?_⟩
  · intro h1 h2
    simp [sc_pkcs11_init_lock, hres, h1, h2]
  · intro h1 h2
    simp [sc_pkcs11_init_lock, hres, h1, h2]
  · intro h1 h2
    simp [sc_pkcs11_init_lock, hres, h1, h2]
  · intro h1 h2
    simp [sc_pkcs11_init_lock, hres, h1, h2]
  · intro hbad
    have hrv : (sc_pkcs11_init_lock (some a) createMutexRv).1 = createMutexRv := by
      cases h1 : argsApplock a <;> cases h2 : argsOslock a <;>
        simp [sc_pkcs11_init_lock, hres, h1, h2]
    refine ⟨hrv, ?_, ?_⟩ <;> simp [C_Initialize, hrv, hbad]

/-- Witness for claim C5: OS-locking-acceptable arguments without
caller primitives select the built-in regime, and a CreateMutex
failure code 2 (host memory) is surfaced by C_Initialize. -/
theorem claim_C5_witness :
    (sc_pkcs11_init_lock
        (some { hasCreateMutex := false, hasDestroyMutex := false
              , hasLockMutex := false, hasUnlockMutex := false
              , flags := CKF_OS_LOCKING_OK, pReservedSet := false }) 2).2 = .osLock ∧
    C_Initialize false
      (some { hasCreateMutex := false, hasDestroyMutex := false
            , hasLockMutex := false, hasUnlockMutex := false
            , flags := CKF_OS_LOCKING_OK, pReservedSet := false }) 2 true true true = 2 := by
  have h := claim_C5_locking_table
    { hasCreateMutex := false, hasDestroyMutex := false
    , hasLockMutex := false, hasUnlockMutex := false
    , flags := CKF_OS_LOCKING_OK, pReservedSet := false } 2 true true true rfl
  exact ⟨h.2.1 (by decide) (by decide), (h.2.2.2.2 (by decide)).2.1⟩

/-! ## Claim C6 -/

/-- A card-primitive invocation of `kind` leaves the count of a
different primitive `k` unchanged. -/
theorem card_command_nCmd_ne (c : P15Card) (kind : CmdKind) (input out : List Nat)
    (st : DevState) (k : CmdKind) (hk : k ≠ kind) :
    ((card_command c kind input out st).2.2).nCmd k = st.nCmd k := by
  simp [card_command, DevState.nCmd, DevEvent.isCmd, List.filter_append,
    eq_false (Ne.symm hk)]

/-- Pushing the security environment records no primitive invocation. -/
theorem sc_set_security_env_nCmd (c : P15Card) (st : DevState) (k : CmdKind) :
    ((sc_set_security_env c st).2).nCmd k = st.nCmd k := by
  simp [sc_set_security_env, DevState.nCmd, DevEvent.isCmd, DevEvent.isSetEnv,
    List.filter_append]

/-- A cached-PIN revalidation records no primitive invocation. -/
theorem pincache_revalidate_nCmd (c : P15Card) (st : DevState) (k : CmdKind) :
    ((sc_pkcs15_pincache_revalidate c st).2).nCmd k = st.nCmd k := by
  simp [sc_pkcs15_pincache_revalidate, DevState.nCmd, DevEvent.isCmd,
    DevEvent.isReval, List.filter_append]

/-- Taking the device lock records no primitive invocation. -/
theorem sc_lock_nCmd (c : P15Card) (st : DevState) (k : CmdKind) :
    ((sc_lock c st).2).nCmd k = st.nCmd k := by
  by_cases h : c.lockRes st.lockCalls = SC_SUCCESS <;>
    simp [sc_lock, h, DevState.nCmd]

/-- Releasing the device lock records no primitive invocation. -/
theorem sc_unlock_nCmd (st : DevState) (k : CmdKind) :
    (sc_unlock st).nCmd k = st.nCmd k := by
  simp [sc_unlock, DevState.nCmd]

/-- `select_key_file` records no card-primitive invocation. -/
theorem select_key_file_nCmd (c : P15Card) (obj : P15Object) (senv : SecurityEnv)
    (st : DevState) (k : CmdKind) :
    ((select_key_file c obj senv st).2.2).nCmd k = st.nCmd k := by
  unfold select_key_file
  cases hgf : get_file_path obj with
  | error e => rfl
  | ok orig =>
    dsimp only
    split
    · simp [sc_select_file, DevState.nCmd, DevEvent.isCmd, List.filter_append]
    · split
      · simp [sc_select_file, DevState.nCmd, DevEvent.isCmd, List.filter_append]
      · split
        · simp [sc_select_file, DevState.nCmd, DevEvent.isCmd, List.filter_append]
        · rfl

/-- One dispatcher attempt for primitive `kind` records no invocation
of a different primitive `k`. -/
theorem use_key_attempt_nCmd (c : P15Card) (obj : P15Object) (senv : SecurityEnv)
    (kind : CmdKind) (input out : List Nat) (r0 : Int) (path : ScPath)
    (st : DevState) (k : CmdKind) (hk : k ≠ kind) :
    ((use_key_attempt c obj senv kind input out r0 path st).2.2.2).nCmd k = st.nCmd k := by
  unfold use_key_attempt
  split
  next r1 senv1 st1 heq1 =>
    have h1 : st1.nCmd k = st.nCmd k := by
      by_cases hpn : pathNonzero path = true
      · rw [if_pos hpn] at heq1
        have h := select_key_file_nCmd c obj senv st k
        rw [heq1] at h
        exact h
      · rw [if_neg hpn] at heq1
        cases heq1
        rfl
    split
    · split
      next r2 st2 heq2 =>
        have h2 : st2.nCmd k = st1.nCmd k := by
          have h := sc_set_security_env_nCmd c st1 k
          rw [heq2] at h
          exact h
        split
        · split
          next r3 out3 st3 heq3 =>
            have h3 : st3.nCmd k = st2.nCmd k := by
              have h := card_command_nCmd_ne c kind input out st2 k hk
              rw [heq3] at h
              exact h
            dsimp only
            omega
        · dsimp only
          omega
    · dsimp only
      omega

/-- The dispatcher run for primitive `kind` records no invocation of a
different primitive `k`. -/
theorem use_key_nCmd (c : P15Card) (obj : P15Object) (senv : SecurityEnv)
    (kind : CmdKind) (input out : List Nat) (st : DevState) (k : CmdKind)
    (hk : k ≠ kind) :
    ((use_key c obj senv kind input out st).2.2.2).nCmd k = st.nCmd k := by
  unfold use_key
  cases hgf : get_file_path obj with
  | error e => rfl
  | ok path =>
    have hA : ∀ (senv' : SecurityEnv) (out' : List Nat) (r0' : Int) (st' : DevState),
        ((use_key_attempt c obj senv' kind input out' r0' path st').2.2.2).nCmd k =
          st'.nCmd k :=
      fun senv' out' r0' st' =>
        use_key_attempt_nCmd c obj senv' kind input out' r0' path st' k hk
    dsimp only
    split
    · exact sc_lock_nCmd c st k
    · split
      · split
        · simp only [sc_unlock_nCmd, pincache_revalidate_nCmd, hA, sc_lock_nCmd]
        · simp only [sc_unlock_nCmd, hA, pincache_revalidate_nCmd, sc_lock_nCmd]
      · simp only [sc_unlock_nCmd, hA, sc_lock_nCmd]

/-- The decipher handler never invokes the sign primitive. -/
theorem decipher_no_sign (c : P15Card) (obj : P15Object) (flags : Nat)
    (input out : List Nat) (st : DevState) :
    ((sc_pkcs15_decipher c obj flags input out st).2.2).nCmd .sign = st.nCmd .sign := by
  have hU : ∀ (senv' : SecurityEnv) (out' : List Nat),
      ((use_key c obj senv' .decipher input out' st).2.2.2).nCmd .sign =
        st.nCmd .sign :=
    fun senv' out' => use_key_nCmd c obj senv' .decipher input out' st .sign (by decide)
  unfold sc_pkcs15_decipher
  split
  · rfl
  · split
    · rfl
    · split
      · rfl
      · dsimp only
        split
        · dsimp only
          exact hU _ _
        · split <;> (dsimp only; exact hU _ _)

/-- Claim C6 (amended): for an RSA sign request on a key usable for
both signing and deciphering, when the device capability entry carries
the needs-usage flag and raw RSA was requested, the whole call is the
decipher handler applied to the unchanged arguments — the input is
forwarded as-is (raw RSA needs no software padding, so none is applied
and the mode flags are not altered on this branch) — and the device
sign primitive is never invoked. -/
theorem claim_C6_raw_sign_redirect (c : P15Card) (obj : P15Object) (flags : Nat)
    (input out : List Nat) (st : DevState) (senv0 : SecurityEnv) (ai : AlgInfo)
    (husage : obj.usage &&& (SC_PKCS15_PRKEY_USAGE_SIGN ||| SC_PKCS15_PRKEY_USAGE_SIGNRECOVER |||
        SC_PKCS15_PRKEY_USAGE_NONREPUDIATION) ≠ 0)
    (htype : obj.objType = .prkeyRsa)
    (hform : format_senv c obj = .ok (senv0, ai))
    (hnu : ai.flags &&& SC_ALGORITHM_NEED_USAGE ≠ 0)
    (hus : obj.usage &&& USAGE_ANY_SIGN ≠ 0)
    (hud : obj.usage &&& USAGE_ANY_DECIPHER ≠ 0)
    (hraw : flags &&& SC_ALGORITHM_RSA_RAW ≠ 0)
    (hout : bytes4bits obj.modulusLength ≤ out.length)
    (halloc : c.allocOk = true) :
    sc_pkcs15_compute_signature c obj flags input out st =
      sc_pkcs15_decipher c obj flags input out st ∧
    ((sc_pkcs15_compute_signature c obj flags input out st).2.2).nCmd .sign =
      st.nCmd .sign := by
  have h1 : sc_pkcs15_compute_signature c obj flags input out st =
      sc_pkcs15_decipher c obj flags input out st := by
    unfold sc_pkcs15_compute_signature
    rw [if_neg husage, hform]
    dsimp only
    rw [htype]
    dsimp only
    rw [if_neg (by omega : ¬ out.length < bytes4bits obj.modulusLength)]
    rw [if_neg (by simp [halloc])]
    rw [if_pos ⟨rfl, hnu, hus, hud⟩]
    rw [if_pos hraw]
  exact ⟨h1, by rw [h1]; exact decipher_no_sign c obj flags input out st⟩

set_option maxRecDepth 8000 in
/-- Counterexample to claim C6 as stated: in the raw-RSA combined-usage
redirect, no RSA padding is pre-applied in software and no mode flag is
flipped — the decipher handler (and through it the device decipher
primitive) receives the caller's one-byte message unchanged, not a
modulus-length PKCS#1 block (128 bytes for the 1024-bit key here).
The trace also confirms the sign primitive is never invoked. -/
theorem claim_C6_counterexample :
    (sc_pkcs15_compute_signature
        { cardA with find_rsa_alg :=
            fun _ => some ⟨SC_ALGORITHM_NEED_USAGE ||| SC_ALGORITHM_RSA_RAW, 1024⟩
                   , get_encoding_flags := fun _ _ => .ok (0, SC_ALGORITHM_RSA_RAW)
                   , cmdRes := fun _ _ => 16 }
        { objType := .prkeyRsa
        , usage := SC_PKCS15_PRKEY_USAGE_SIGN ||| SC_PKCS15_PRKEY_USAGE_DECRYPT
        , native := true, keyReference := -1, modulusLength := 1024
        , fieldLength := 0, valueLen := 0, keyType := 0, path := ⟨[], []⟩ }
        SC_ALGORITHM_RSA_RAW [171] (List.replicate 128 0) DevState.init).2.2.events =
      [.setEnvEv 1, .cmdEv .decipher [171] 1] ∧
    [171].length ≠ bytes4bits 1024 := by
  constructor
  · rfl
  · decide

/-- Witness for claim C6 (amended): at a concrete needs-usage card the
raw-RSA sign call equals the decipher call on the same arguments, and
its trace holds no sign-primitive invocation. -/
theorem claim_C6_witness :
    (sc_pkcs15_compute_signature
        { cardA with find_rsa_alg :=
            fun _ => some ⟨SC_ALGORITHM_NEED_USAGE ||| SC_ALGORITHM_RSA_RAW, 1024⟩
                   , get_encoding_flags := fun _ _ => .ok (0, SC_ALGORITHM_RSA_RAW)
                   , cmdRes := fun _ _ => 16 }
        { objType := .prkeyRsa
        , usage := SC_PKCS15_PRKEY_USAGE_SIGN ||| SC_PKCS15_PRKEY_USAGE_DECRYPT
        , native := true, keyReference := -1, modulusLength := 1024
        , fieldLength := 0, valueLen := 0, keyType := 0, path := ⟨[], []⟩ }
        SC_ALGORITHM_RSA_RAW [171] (List.replicate 128 0) DevState.init =
      sc_pkcs15_decipher
        { cardA with find_rsa_alg :=
            fun _ => some ⟨SC_ALGORITHM_NEED_USAGE ||| SC_ALGORITHM_RSA_RAW, 1024⟩
                   , get_encoding_flags := fun _ _ => .ok (0, SC_ALGORITHM_RSA_RAW)
                   , cmdRes := fun _ _ => 16 }
        { objType := .prkeyRsa
        , usage := SC_PKCS15_PRKEY_USAGE_SIGN ||| SC_PKCS15_PRKEY_USAGE_DECRYPT
        , native := true, keyReference := -1, modulusLength := 1024
        , fieldLength := 0, valueLen := 0, keyType := 0, path := ⟨[], []⟩ }
        SC_ALGORITHM_RSA_RAW [171] (List.replicate 128 0) DevState.init) ∧
    (sc_pkcs15_compute_signature
        { cardA with find_rsa_alg :=
            fun _ => some ⟨SC_ALGORITHM_NEED_USAGE ||| SC_ALGORITHM_RSA_RAW, 1024⟩
                   , get_encoding_flags := fun _ _ => .ok (0, SC_ALGORITHM_RSA_RAW)
                   , cmdRes := fun _ _ => 16 }
        { objType := .prkeyRsa
        , usage := SC_PKCS15_PRKEY_USAGE_SIGN ||| SC_PKCS15_PRKEY_USAGE_DECRYPT
        , native := true, keyReference := -1, modulusLength := 1024
        , fieldLength := 0, valueLen := 0, keyType := 0, path := ⟨[], []⟩ }
        SC_ALGORITHM_RSA_RAW [171] (List.replicate 128 0) DevState.init).2.2.nCmd .sign = 0 := by
  have h := claim_C6_raw_sign_redirect
    { cardA with find_rsa_alg :=
        fun _ => some ⟨SC_ALGORITHM_NEED_USAGE ||| SC_ALGORITHM_RSA_RAW, 1024⟩
               , get_encoding_flags := fun _ _ => .ok (0, SC_ALGORITHM_RSA_RAW)
               , cmdRes := fun _ _ => 16 }
    { objType := .prkeyRsa
    , usage := SC_PKCS15_PRKEY_USAGE_SIGN ||| SC_PKCS15_PRKEY_USAGE_DECRYPT
    , native := true, keyReference := -1, modulusLength := 1024
    , fieldLength := 0, valueLen := 0, keyType := 0, path := ⟨[], []⟩ }
    SC_ALGORITHM_RSA_RAW [171] (List.replicate 128 0) DevState.init
    ({ SecurityEnv.empty with algorithm := SC_ALGORITHM_RSA, key_size_bits := 1024
                            , flags := SC_SEC_ENV_ALG_PRESENT })
    ⟨SC_ALGORITHM_NEED_USAGE ||| SC_ALGORITHM_RSA_RAW, 1024⟩
    (by decide) rfl (by rfl) (by decide) (by decide) (by decide) (by decide)
    (by simp [bytes4bits]) rfl
  exact ⟨h.1, h.2.trans (by rfl)⟩

/-! ## Claim C7 -/

/-- Claim C7: for an RSA sign call that reaches the device (here a raw
no-padding request on a modulus-length input), if the device returns a
signature of `n` bytes with `n` smaller than the modulus byte length,
the handler right-shifts the returned bytes to the end of a
modulus-length window and fills the leading bytes with zeros: the call
returns exactly the modulus byte length and the output buffer starts
with `modlen - n` zero bytes followed by the device's `n` bytes
(bytes beyond the modulus-length window are untouched). -/
theorem claim_C7_rsa_sig_leftpad (c : P15Card) (obj : P15Object)
    (input out w : List Nat) (st : DevState) (senv0 : SecurityEnv) (ai : AlgInfo)
    (sf : Nat) (n : Int)
    (husage : obj.usage &&& (SC_PKCS15_PRKEY_USAGE_SIGN ||| SC_PKCS15_PRKEY_USAGE_SIGNRECOVER |||
        SC_PKCS15_PRKEY_USAGE_NONREPUDIATION) ≠ 0)
    (htype : obj.objType = .prkeyRsa)
    (hform : format_senv c obj = .ok (senv0, ai))
    (halg : senv0.algorithm = SC_ALGORITHM_RSA)
    (henc : c.get_encoding_flags SC_ALGORITHM_RSA_PAD_NONE ai.flags = .ok (0, sf))
    (hnu : ai.flags &&& SC_ALGORITHM_NEED_USAGE = 0)
    (hinlen : input.length = bytes4bits obj.modulusLength)
    (hp : obj.path = ⟨[], []⟩)
    (hlock : c.lockRes st.lockCalls = SC_SUCCESS)
    (henv : c.setEnvRes st.nSetEnv = SC_SUCCESS)
    (halloc : c.allocOk = true)
    (hout : bytes4bits obj.modulusLength ≤ out.length)
    (hcmd : c.cmdRes .sign (st.nCmd .sign) = n)
    (hn0 : 0 ≤ n)
    (hnlt : n.toNat < bytes4bits obj.modulusLength)
    (hw : c.cmdOut .sign (st.nCmd .sign) = w)
    (hwlen : w.length = n.toNat) :
    sc_pkcs15_compute_signature c obj SC_ALGORITHM_RSA_PAD_NONE input out st =
      ((bytes4bits obj.modulusLength : Int),
       (List.replicate (bytes4bits obj.modulusLength - n.toNat) 0 ++ w) ++
         out.drop (bytes4bits obj.modulusLength),
       { st with lockCalls := st.lockCalls + 1
               , events := st.events ++
                   [.setEnvEv (st.lockDepth + 1),
                    .cmdEv .sign input (st.lockDepth + 1)] }) := by
  have hkobj : (obj.objType.isPrkey || obj.objType.isSkey) = true := by
    simp [htype, ObjType.isPrkey]
  have hnot : c.cmdRes .sign (st.nCmd .sign) ≠
      SC_ERROR_SECURITY_STATUS_NOT_SATISFIED := by
    rw [hcmd]
    simp only [SC_ERROR_SECURITY_STATUS_NOT_SATISFIED]
    omega
  have htake : (input ++ List.replicate (bytes4bits obj.modulusLength) 0).take
      (bytes4bits obj.modulusLength) = input := by
    rw [← hinlen]
    exact List.take_left input _
  have hov : overwriteFront out w = w ++ out.drop n.toNat := by
    unfold overwriteFront
    have h1 : w.length ≤ out.length := by omega
    rw [List.take_of_length_le h1, min_eq_left h1, hwlen]
  have hdrop : (w ++ out.drop n.toNat).drop (bytes4bits obj.modulusLength) =
      out.drop (bytes4bits obj.modulusLength) := by
    have h1 : bytes4bits obj.modulusLength =
        w.length + (bytes4bits obj.modulusLength - n.toNat) := by omega
    rw [h1, List.drop_append]
    rw [List.drop_drop]
    congr 1
    omega
  have htakew : (w ++ out.drop n.toNat).take n.toNat = w := by
    rw [← hwlen]
    exact List.take_left w _
  have hneg1 : ¬(ObjType.prkeyRsa = ObjType.prkeyRsa ∧
      ai.flags &&& SC_ALGORITHM_NEED_USAGE ≠ 0 ∧
      obj.usage &&& USAGE_ANY_SIGN ≠ 0 ∧ obj.usage &&& USAGE_ANY_DECIPHER ≠ 0) := by
    rintro ⟨-, h, -⟩
    exact h hnu
  have hneg2 : ¬(ObjType.prkeyRsa = ObjType.prkeyRsa ∧
      SC_ALGORITHM_RSA_PAD_NONE =
        (SC_ALGORITHM_RSA_PAD_PKCS1_TYPE_01 ||| SC_ALGORITHM_RSA_HASH_NONE) ∧
      ai.flags &&& SC_ALGORITHM_RSA_RAW = 0 ∧
      ai.flags &&& SC_ALGORITHM_RSA_HASH_NONE = 0 ∧
      ai.flags &&& SC_ALGORITHM_RSA_PAD_PKCS1_TYPE_01 ≠ 0) := by
    rintro ⟨-, h, -⟩
    exact absurd h (by decide)
  have hneg3 : ¬(ObjType.prkeyRsa = ObjType.prkeyEc ∧
      ai.flags &&& SC_ALGORITHM_ECDSA_RAW ≠ 0 ∧
      SC_ALGORITHM_RSA_PAD_NONE &&& SC_ALGORITHM_ECDSA_HASHES &&& ai.flags = 0) := by
    rintro ⟨h, -⟩
    exact absurd h (by decide)
  unfold sc_pkcs15_compute_signature
  rw [if_neg husage, hform]
  dsimp only
  rw [htype]
  dsimp only
  rw [if_neg (by omega : ¬ out.length < bytes4bits obj.modulusLength)]
  rw [if_neg (by simp [halloc])]
  rw [if_neg hneg1, if_neg hneg2]
  dsimp only
  rw [if_neg hneg3]
  rw [henc]
  dsimp only
  rw [if_neg (by simp : ¬ (0 : Nat) ≠ 0)]
  rw [if_pos ⟨halg, by decide⟩]
  rw [if_neg (by omega : ¬ input.length < bytes4bits obj.modulusLength)]
  unfold compute_signature_dispatch
  rw [if_neg (show ¬ObjType.prkeyRsa = ObjType.prkeyGostr3410 by decide)]
  rw [htake]
  rw [use_key_eval_nopath c obj _ .sign input out st hkobj hp hlock henv hnot]
  dsimp only
  rw [hcmd, hw]
  rw [if_neg (by omega : ¬ n < 0)]
  rw [if_pos ⟨htype, hnlt⟩]
  rw [hov, htakew, hdrop]

set_option maxRecDepth 8000 in
/-- Witness for claim C7: a 1024-bit RSA key, a raw sign request, and a
device that answers with only 100 signature bytes; the handler returns
128 and the buffer holds 28 zero bytes, the 100 device bytes, then the
untouched tail. -/
theorem claim_C7_witness :
    sc_pkcs15_compute_signature
      { cardA with find_rsa_alg := fun _ => some ⟨SC_ALGORITHM_RSA_RAW, 1024⟩
                 , get_encoding_flags := fun _ _ => .ok (0, SC_ALGORITHM_RSA_RAW)
                 , cmdRes := fun _ _ => 100
                 , cmdOut := fun _ _ => List.replicate 100 5 }
      { objType := .prkeyRsa, usage := SC_PKCS15_PRKEY_USAGE_SIGN
      , native := true, keyReference := -1, modulusLength := 1024
      , fieldLength := 0, valueLen := 0, keyType := 0, path := ⟨[], []⟩ }
      SC_ALGORITHM_RSA_PAD_NONE (List.replicate 128 9) (List.replicate 130 3)
      DevState.init =
      (128, (List.replicate 28 0 ++ List.replicate 100 5) ++
              (List.replicate 130 3).drop 128,
       ⟨0, 1, [.setEnvEv 1, .cmdEv .sign (List.replicate 128 9) 1]⟩) := by
  have h := claim_C7_rsa_sig_leftpad
    { cardA with find_rsa_alg := fun _ => some ⟨SC_ALGORITHM_RSA_RAW, 1024⟩
               , get_encoding_flags := fun _ _ => .ok (0, SC_ALGORITHM_RSA_RAW)
               , cmdRes := fun _ _ => 100
               , cmdOut := fun _ _ => List.replicate 100 5 }
    { objType := .prkeyRsa, usage := SC_PKCS15_PRKEY_USAGE_SIGN
    , native := true, keyReference := -1, modulusLength := 1024
    , fieldLength := 0, valueLen := 0, keyType := 0, path := ⟨[], []⟩ }
    (List.replicate 128 9) (List.replicate 130 3) (List.replicate 100 5)
    DevState.init
    ({ SecurityEnv.empty with algorithm := SC_ALGORITHM_RSA, key_size_bits := 1024
                            , flags := SC_SEC_ENV_ALG_PRESENT })
    ⟨SC_ALGORITHM_RSA_RAW, 1024⟩ SC_ALGORITHM_RSA_RAW 100
    (by decide) rfl rfl rfl rfl (by decide) (by decide) rfl rfl rfl rfl
    (by decide) rfl (by decide) (by decide) rfl (by decide)
  exact h

/-! ## Claim C8 -/

/-- Evaluation of `sc_pkcs15_wrap` down to its length-reconciliation
logic, for a wrapping key without an on-device location, a device that
grants the lock, accepts the environment, and answers the wrap
primitive with `n ≥ 0`. -/
theorem sc_pkcs15_wrap_eval (c : P15Card) (key target_key : P15Object) (flags : Nat)
    (cryptogram : Option (List Nat)) (crgram_len : Option Nat)
    (param : Option (List Nat)) (paramlen : Nat) (st : DevState)
    (senv0 : SecurityEnv) (ai : AlgInfo) (tf : ScPath) (pf sf : Nat) (n : Int)
    (hkey : key.objType = .prkeyRsa ∨ key.objType = .skeyDes ∨
      key.objType = .skey3des ∨ key.objType = .skeyGeneric)
    (husage : key.usage &&& SC_PKCS15_PRKEY_USAGE_WRAP ≠ 0)
    (htk : target_key.objType = .prkeyRsa ∨ target_key.objType.isSkey = true)
    (hform : format_senv c key = .ok (senv0, ai))
    (hparams : senv0.params = [])
    (htf : resolve_target_file c target_key.path = .ok tf)
    (henc : c.get_encoding_flags flags ai.flags = .ok (pf, sf))
    (hp : key.path = ⟨[], []⟩)
    (hlock : c.lockRes st.lockCalls = SC_SUCCESS)
    (henv : c.setEnvRes st.nSetEnv = SC_SUCCESS)
    (hcmd : c.cmdRes .wrap (st.nCmd .wrap) = n)
    (hn : 0 ≤ n) :
    sc_pkcs15_wrap c key target_key flags cryptogram crgram_len param paramlen st =
      (match crgram_len with
       | none => (n, none,
           { st with lockCalls := st.lockCalls + 1
                   , events := st.events ++
                       [.setEnvEv (st.lockDepth + 1), .cmdEv .wrap [] (st.lockDepth + 1)] })
       | some declared =>
         if declared < n.toNat then
           if cryptogram ≠ none then
             (SC_ERROR_BUFFER_TOO_SMALL, some n.toNat,
              { st with lockCalls := st.lockCalls + 1
                      , events := st.events ++
                          [.setEnvEv (st.lockDepth + 1), .cmdEv .wrap [] (st.lockDepth + 1)] })
           else
             (n, some n.toNat,
              { st with lockCalls := st.lockCalls + 1
                      , events := st.events ++
                          [.setEnvEv (st.lockDepth + 1), .cmdEv .wrap [] (st.lockDepth + 1)] })
         else
           (n, some n.toNat,
            { st with lockCalls := st.lockCalls + 1
                    , events := st.events ++
                        [.setEnvEv (st.lockDepth + 1), .cmdEv .wrap [] (st.lockDepth + 1)] })) := by
  have hkobj : (key.objType.isPrkey || key.objType.isSkey) = true := by
    rcases hkey with h | h | h | h <;> simp [h, ObjType.isPrkey, ObjType.isSkey]
  have hnot : c.cmdRes .wrap (st.nCmd .wrap) ≠ SC_ERROR_SECURITY_STATUS_NOT_SATISFIED := by
    rw [hcmd]
    simp only [SC_ERROR_SECURITY_STATUS_NOT_SATISFIED]
    omega
  have hadd1 : sec_env_add_param { senv0 with operation := SecOperation.wrap }
      (.targetFile tf) =
      .ok { senv0 with operation := SecOperation.wrap
                     , params := senv0.params ++ [.targetFile tf] } := by
    unfold sec_env_add_param
    rw [if_pos]
    simp [hparams, SC_SEC_ENV_MAX_PARAMS]
  unfold sc_pkcs15_wrap
  rcases hkey with h | h | h | h <;>
    rw [h] <;>
    dsimp only <;>
    rw [if_neg husage] <;>
    dsimp only <;>
    rw [if_neg (not_not_intro htk), hform] <;>
    dsimp only <;>
    rw [htf] <;>
    dsimp only <;>
    rw [hadd1] <;>
    dsimp only <;>
    rw [henc] <;>
    dsimp only <;>
    [skip; skip; skip; skip] <;>
  · by_cases hiv : sf &&& (SC_ALGORITHM_AES_CBC ||| SC_ALGORITHM_AES_CBC_PAD) ≠ 0
    · rw [if_pos hiv]
      have hadd2 : sec_env_add_param
          { senv0 with operation := SecOperation.wrap
                     , params := senv0.params ++ [.targetFile tf]
                     , algorithm_flags := sf }
          (.iv param paramlen) =
          .ok { senv0 with operation := SecOperation.wrap
                         , params := (senv0.params ++ [.targetFile tf]) ++ [.iv param paramlen]
                         , algorithm_flags := sf } := by
        unfold sec_env_add_param
        rw [if_pos]
        simp [hparams, SC_SEC_ENV_MAX_PARAMS]
      rw [hadd2]
      dsimp only
      rw [use_key_eval_nopath c key _ .wrap [] (cryptogram.getD []) st hkobj hp hlock henv hnot]
      dsimp only
      rw [hcmd]
      rw [if_pos (by omega : (-1 : Int) < n)]
    · rw [if_neg hiv]
      dsimp only
      rw [use_key_eval_nopath c key _ .wrap [] (cryptogram.getD []) st hkobj hp hlock henv hnot]
      dsimp only
      rw [hcmd]
      rw [if_pos (by omega : (-1 : Int) < n)]

/-- Claim C8: for a wrap call whose device primitive succeeds with
result length `n`: a null output buffer with a non-null length pointer
yields success with the length pointer set to `n` — never
buffer-too-small (whatever the declared length was); a non-null output
buffer whose declared length is smaller than `n` yields
buffer-too-small with the required length `n` stored. -/
theorem claim_C8_wrap_length (c : P15Card) (key target_key : P15Object) (flags : Nat)
    (param : Option (List Nat)) (paramlen : Nat) (st : DevState)
    (senv0 : SecurityEnv) (ai : AlgInfo) (tf : ScPath) (pf sf : Nat) (n : Int)
    (declared : Nat) (buf : List Nat)
    (hkey : key.objType = .prkeyRsa ∨ key.objType = .skeyDes ∨
      key.objType = .skey3des ∨ key.objType = .skeyGeneric)
    (husage : key.usage &&& SC_PKCS15_PRKEY_USAGE_WRAP ≠ 0)
    (htk : target_key.objType = .prkeyRsa ∨ target_key.objType.isSkey = true)
    (hform : format_senv c key = .ok (senv0, ai))
    (hparams : senv0.params = [])
    (htf : resolve_target_file c target_key.path = .ok tf)
    (henc : c.get_encoding_flags flags ai.flags = .ok (pf, sf))
    (hp : key.path = ⟨[], []⟩)
    (hlock : c.lockRes st.lockCalls = SC_SUCCESS)
    (henv : c.setEnvRes st.nSetEnv = SC_SUCCESS)
    (hcmd : c.cmdRes .wrap (st.nCmd .wrap) = n)
    (hn : 0 ≤ n) :
    ((sc_pkcs15_wrap c key target_key flags none (some declared) param paramlen st).1 = n ∧
     (sc_pkcs15_wrap c key target_key flags none (some declared) param paramlen st).2.1 =
       some n.toNat ∧
     (sc_pkcs15_wrap c key target_key flags none (some declared) param paramlen st).1 ≠
       SC_ERROR_BUFFER_TOO_SMALL) ∧
    (declared < n.toNat →
      (sc_pkcs15_wrap c key target_key flags (some buf) (some declared) param paramlen st).1 =
        SC_ERROR_BUFFER_TOO_SMALL ∧
      (sc_pkcs15_wrap c key target_key flags (some buf) (some declared) param paramlen st).2.1 =
        some n.toNat) := by
  have h1 := sc_pkcs15_wrap_eval c key target_key flags none (some declared) param paramlen
    st senv0 ai tf pf sf n hkey husage htk hform hparams htf henc hp hlock henv hcmd hn
  have h2 := sc_pkcs15_wrap_eval c key target_key flags (some buf) (some declared) param paramlen
    st senv0 ai tf pf sf n hkey husage htk hform hparams htf henc hp hlock henv hcmd hn
  constructor
  · rw [h1]
    dsimp only
    by_cases hd : declared < n.toNat
    · rw [if_pos hd, if_neg (by simp : ¬ (none : Option (List Nat)) ≠ none)]
      exact ⟨rfl, rfl, by simp only [SC_ERROR_BUFFER_TOO_SMALL]; omega⟩
    · rw [if_neg hd]
      exact ⟨rfl, rfl, by simp only [SC_ERROR_BUFFER_TOO_SMALL]; omega⟩
  · intro hd
    rw [h2]
    dsimp only
    rw [if_pos hd, if_pos (by simp : (some buf : Option (List Nat)) ≠ none)]
    exact ⟨rfl, rfl⟩

/-- Witness for claim C8 at a concrete secret wrapping key and a
device answering 24 cryptogram bytes: the null-buffer query succeeds
with 24, and a 10-byte caller buffer gets buffer-too-small plus 24. -/
theorem claim_C8_witness :
    ((sc_pkcs15_wrap
        { cardA with find_aes_alg := fun _ => some ⟨0, 256⟩
                   , cmdRes := fun _ _ => 24 }
        { objType := .skeyGeneric, usage := SC_PKCS15_PRKEY_USAGE_WRAP
        , native := true, keyReference := -1, modulusLength := 0, fieldLength := 0
        , valueLen := 32, keyType := CKK_AES, path := ⟨[], []⟩ }
        { objType := .skeyGeneric, usage := 0, native := true, keyReference := -1
        , modulusLength := 0, fieldLength := 0, valueLen := 16, keyType := CKK_AES
        , path := ⟨[0x3F, 0x00, 0x30, 0x01], []⟩ }
        0 none (some 0) none 0 DevState.init).1 = 24) ∧
    ((sc_pkcs15_wrap
        { cardA with find_aes_alg := fun _ => some ⟨0, 256⟩
                   , cmdRes := fun _ _ => 24 }
        { objType := .skeyGeneric, usage := SC_PKCS15_PRKEY_USAGE_WRAP
        , native := true, keyReference := -1, modulusLength := 0, fieldLength := 0
        , valueLen := 32, keyType := CKK_AES, path := ⟨[], []⟩ }
        { objType := .skeyGeneric, usage := 0, native := true, keyReference := -1
        , modulusLength := 0, fieldLength := 0, valueLen := 16, keyType := CKK_AES
        , path := ⟨[0x3F, 0x00, 0x30, 0x01], []⟩ }
        0 (some (List.replicate 10 0)) (some 10) none 0 DevState.init).1 =
      SC_ERROR_BUFFER_TOO_SMALL) := by
  have h := claim_C8_wrap_length
    { cardA with find_aes_alg := fun _ => some ⟨0, 256⟩
               , cmdRes := fun _ _ => 24 }
    { objType := .skeyGeneric, usage := SC_PKCS15_PRKEY_USAGE_WRAP
    , native := true, keyReference := -1, modulusLength := 0, fieldLength := 0
    , valueLen := 32, keyType := CKK_AES, path := ⟨[], []⟩ }
    { objType := .skeyGeneric, usage := 0, native := true, keyReference := -1
    , modulusLength := 0, fieldLength := 0, valueLen := 16, keyType := CKK_AES
    , path := ⟨[0x3F, 0x00, 0x30, 0x01], []⟩ }
    0 none 0 DevState.init
    ({ SecurityEnv.empty with algorithm := SC_ALGORITHM_AES, key_size_bits := 32
                            , flags := SC_SEC_ENV_ALG_PRESENT })
    ⟨0, 256⟩ ⟨[0x30, 0x01], []⟩ 0 0 24 10 (List.replicate 10 0)
    (by decide) (by decide) (by decide) rfl rfl rfl rfl rfl rfl rfl rfl (by decide)
  exact ⟨h.1.1, (h.2 (by decide)).1⟩

/-! ## Claim C9 -/

/-- Every id returned by the selection loop belongs to a slot that is
marked seen in the updated slot list. -/
theorem slotListLoop_mem_marked (tp : Bool) :
    ∀ (prev : Option Nat) (slots : List VSlot) (i : Nat),
      i ∈ (slotListLoop tp prev slots).2 →
      ∃ s' ∈ (slotListLoop tp prev slots).1, s'.id = i ∧ s'.seen = true := by
  intro prev slots
  induction slots generalizing prev with
  | nil => intro i hi; simp [slotListLoop] at hi
  | cons s rest ih =>
    intro i hi
    rcases hrec : slotListLoop tp s.reader rest with ⟨rest', ids⟩
    simp only [slotListLoop, hrec] at hi ⊢
    by_cases hincl :
        ((!tp && (decide (s.reader ≠ prev) || s.seen)) || s.tokenPresent) = true
    · rw [if_pos hincl] at hi ⊢
      rcases List.mem_cons.mp hi with h | h
      · exact ⟨{ s with seen := true }, List.mem_cons_self _ _, h.symm, rfl⟩
      · obtain ⟨s', hs', hid, hseen⟩ := ih s.reader i (by rw [hrec]; exact h)
        rw [hrec] at hs'
        exact ⟨s', List.mem_cons_of_mem _ hs', hid, hseen⟩
    · rw [if_neg hincl] at hi ⊢
      obtain ⟨s', hs', hid, hseen⟩ := ih s.reader i (by rw [hrec]; exact hi)
      rw [hrec] at hs'
      exact ⟨s', List.mem_cons_of_mem _ hs', hid, hseen⟩

/-- In an enumeration without the presence filter, every slot already
marked seen is returned. -/
theorem slotListLoop_seen_mem :
    ∀ (prev : Option Nat) (slots : List VSlot) (s : VSlot),
      s ∈ slots → s.seen = true → s.id ∈ (slotListLoop false prev slots).2 := by
  intro prev slots
  induction slots generalizing prev with
  | nil => intro s hs; simp at hs
  | cons s0 rest ih =>
    intro s hs hseen
    rcases hrec : slotListLoop false s0.reader rest with ⟨rest', ids⟩
    simp only [slotListLoop, hrec]
    rcases List.mem_cons.mp hs with h | h
    · subst h
      rw [if_pos (by simp [hseen])]
      exact List.mem_cons_self _ _
    · have hmem := ih s0.reader s h hseen
      rw [hrec] at hmem
      by_cases hincl :
          ((!false && (decide (s0.reader ≠ prev) || s0.seen)) || s0.tokenPresent) = true
      · rw [if_pos hincl]
        exact List.mem_cons_of_mem _ hmem
      · rw [if_neg hincl]
        exact hmem

/-- Every slot whose token is present is returned, with or without the
presence filter. -/
theorem slotListLoop_token_mem (tp : Bool) :
    ∀ (prev : Option Nat) (slots : List VSlot) (s : VSlot),
      s ∈ slots → s.tokenPresent = true → s.id ∈ (slotListLoop tp prev slots).2 := by
  intro prev slots
  induction slots generalizing prev with
  | nil => intro s hs; simp at hs
  | cons s0 rest ih =>
    intro s hs htok
    rcases hrec : slotListLoop tp s0.reader rest with ⟨rest', ids⟩
    simp only [slotListLoop, hrec]
    rcases List.mem_cons.mp hs with h | h
    · subst h
      rw [if_pos (by simp [htok])]
      exact List.mem_cons_self _ _
    · have hmem := ih s0.reader s h htok
      rw [hrec] at hmem
      split
      · exact List.mem_cons_of_mem _ hmem
      · exact hmem

/-- In an enumeration without the presence filter, each reader's first
slot is returned: for every reader value present among the slots, some
slot of that reader is returned (provided the incoming previous-reader
value differs from it, as it does at the loop entry). -/
theorem slotListLoop_reader_mem :
    ∀ (prev : Option Nat) (slots : List VSlot) (r : Nat),
      prev ≠ some r → (∃ s ∈ slots, s.reader = some r) →
      ∃ s ∈ slots, s.reader = some r ∧ s.id ∈ (slotListLoop false prev slots).2 := by
  intro prev slots
  induction slots generalizing prev with
  | nil => intro r _ h; simp at h
  | cons s0 rest ih =>
    intro r hprev hex
    rcases hrec : slotListLoop false s0.reader rest with ⟨rest', ids⟩
    by_cases h0 : s0.reader = some r
    · have hne : s0.reader ≠ prev := by
        rw [h0]
        exact fun hc => hprev hc.symm
      refine ⟨s0, List.mem_cons_self _ _, h0, ?_⟩
      simp only [slotListLoop, hrec]
      rw [if_pos (by simp [hne])]
      exact List.mem_cons_self _ _
    · obtain ⟨s, hs, hr⟩ := hex
      rcases List.mem_cons.mp hs with h | h
      · exact absurd (h ▸ hr) h0
      · obtain ⟨s', hs', hr', hmem⟩ := ih s0.reader r h0 ⟨s, h, hr⟩
        rw [hrec] at hmem
        refine ⟨s', List.mem_cons_of_mem _ hs', hr', ?_⟩
        simp only [slotListLoop, hrec]
        split
        · exact List.mem_cons_of_mem _ hmem
        · exact hmem

/-- With the presence filter the selection returns exactly the ids of
the slots currently reporting a token. -/
theorem slotListLoop_filtered :
    ∀ (prev : Option Nat) (slots : List VSlot),
      (slotListLoop true prev slots).2 =
        (slots.filter (fun s => s.tokenPresent)).map (fun s => s.id) := by
  intro prev slots
  induction slots generalizing prev with
  | nil => simp [slotListLoop]
  | cons s0 rest ih =>
    rcases hrec : slotListLoop true s0.reader rest with ⟨rest', ids⟩
    simp only [slotListLoop, hrec]
    by_cases htok : s0.tokenPresent = true
    · rw [if_pos (by simp [htok])]
      have h2 := ih s0.reader
      rw [hrec] at h2
      simp only [List.filter_cons, htok, if_true, List.map_cons]
      simp only [List.cons.injEq, true_and]
      exact h2
    · rw [if_neg (by simp [htok])]
      have h2 := ih s0.reader
      rw [hrec] at h2
      simp only [List.filter_cons, htok, if_false]
      simpa using h2

/-- Pointwise relation between a slot list and a later state of the
same list: ids, readers and the sticky seen flag are preserved while
the token-present state may have changed arbitrarily (tokens inserted
or removed). -/
def sameButTokens : List VSlot → List VSlot → Prop
  | [], [] => True
  | a :: as, b :: bs =>
    b.id = a.id ∧ b.reader = a.reader ∧ (a.seen = true → b.seen = true) ∧
      sameButTokens as bs
  | _, _ => False

instance : ∀ (l₁ l₂ : List VSlot), Decidable (sameButTokens l₁ l₂)
  | [], [] => by unfold sameButTokens; infer_instance
  | _ :: as, b :: bs =>
    have : Decidable (sameButTokens as bs) := instDecidableSameButTokens as bs
    by unfold sameButTokens; infer_instance
  | [], _ :: _ => by unfold sameButTokens; infer_instance
  | _ :: _, [] => by unfold sameButTokens; infer_instance

/-- Stability: an id returned by an enumeration is returned by every
later unfiltered enumeration, over any evolution of the slot list that
keeps ids, readers and seen flags (token removal included). -/
theorem slotListLoop_stable (tp : Bool) :
    ∀ (prev prev2 : Option Nat) (slots slots2 : List VSlot) (i : Nat),
      i ∈ (slotListLoop tp prev slots).2 →
      sameButTokens (slotListLoop tp prev slots).1 slots2 →
      i ∈ (slotListLoop false prev2 slots2).2 := by
  intro prev prev2 slots
  induction slots generalizing prev prev2 with
  | nil =>
    intro slots2 i hi
    simp [slotListLoop] at hi
  | cons s rest ih =>
    intro slots2 i hi hsame
    rcases hrec : slotListLoop tp s.reader rest with ⟨rest', ids⟩
    simp only [slotListLoop, hrec] at hi hsame
    cases slots2 with
    | nil =>
      by_cases hincl :
          ((!tp && (decide (s.reader ≠ prev) || s.seen)) || s.tokenPresent) = true <;>
        simp [hincl, sameButTokens] at hsame
    | cons t ts =>
      by_cases hincl :
          ((!tp && (decide (s.reader ≠ prev) || s.seen)) || s.tokenPresent) = true
      · rw [if_pos hincl] at hi hsame
        unfold sameButTokens at hsame
        obtain ⟨hid, hreader, hseen, hrest⟩ := hsame
        rcases List.mem_cons.mp hi with h | h
        · subst h
          have htseen : t.seen = true := hseen rfl
          have := slotListLoop_seen_mem prev2 (t :: ts) t (List.mem_cons_self _ _) htseen
          simpa [hid] using this
        · have hmem := ih s.reader t.reader ts i (by rw [hrec]; exact h)
            (by rw [hrec]; exact hrest)
          rcases hrec2 : slotListLoop false t.reader ts with ⟨ts', ids2⟩
          rw [hrec2] at hmem
          simp only [slotListLoop, hrec2]
          split
          · exact List.mem_cons_of_mem _ hmem
          · exact hmem
      · rw [if_neg hincl] at hi hsame
        unfold sameButTokens at hsame
        obtain ⟨hid, hreader, hseen, hrest⟩ := hsame
        have hmem := ih s.reader t.reader ts i (by rw [hrec]; exact hi)
          (by rw [hrec]; exact hrest)
        rcases hrec2 : slotListLoop false t.reader ts with ⟨ts', ids2⟩
        rw [hrec2] at hmem
        simp only [slotListLoop, hrec2]
        split
        · exact List.mem_cons_of_mem _ hmem
        · exact hmem

/-- Claim C9: the slot-list selection policy of `C_GetSlotList`.
Without the token-present filter the returned ids contain a slot for
every reader present in the list, every slot whose token is present,
and (stability) every id returned by any previous enumeration — once
surfaced, a slot is marked seen and keeps appearing in unfiltered
enumerations even after its token is removed (`sameButTokens` states
that only token state changed since).  With the filter, exactly the
ids of the slots currently reporting a token are returned.  Finally
the `C_GetSlotList` wrapper hands out exactly the selected ids when
the caller buffer suffices. -/
theorem claim_C9_slot_list (slots slots2 : List VSlot) :
    (∀ r : Nat, (∃ s ∈ slots, s.reader = some r) →
      ∃ s ∈ slots, s.reader = some r ∧ s.id ∈ (C_GetSlotList_select false slots).2) ∧
    (∀ s ∈ slots, s.tokenPresent = true →
      s.id ∈ (C_GetSlotList_select false slots).2) ∧
    (∀ (tp : Bool) (i : Nat), i ∈ (C_GetSlotList_select tp slots).2 →
      sameButTokens (C_GetSlotList_select tp slots).1 slots2 →
      i ∈ (C_GetSlotList_select false slots2).2) ∧
    ((C_GetSlotList_select true slots).2 =
      (slots.filter (fun s => s.tokenPresent)).map (fun s => s.id)) ∧
    (∀ bufLen : Nat, (C_GetSlotList_select false slots).2.length ≤ bufLen →
      C_GetSlotList false bufLen slots =
        (CKR_OK, some (C_GetSlotList_select false slots).2,
         (C_GetSlotList_select false slots).2.length,
         (C_GetSlotList_select false slots).1)) := by
  refine ⟨?_, ?_, ?_, ?_, ?_⟩
  · intro r hex
    exact slotListLoop_reader_mem none slots r (by simp) hex
  · intro s hs htok
    exact slotListLoop_token_mem false none slots s hs htok
  · intro tp i hi hsame
    exact slotListLoop_stable tp none none slots slots2 i hi hsame
  · exact slotListLoop_filtered none slots
  · intro bufLen hlen
    unfold C_GetSlotList
    rcases hsel : C_GetSlotList_select false slots with ⟨slots', ids⟩
    rw [hsel] at hlen
    simp only at hlen ⊢
    rw [if_neg (by omega : ¬ bufLen < ids.length)]

/-- Witness for claim C9 at a concrete three-slot registry: the slot
with a present token is returned by the unfiltered enumeration, the
filtered enumeration returns exactly that slot, and a removed token
does not evict a previously seen slot. -/
theorem claim_C9_witness :
    (2 : Nat) ∈ (C_GetSlotList_select false
      [⟨1, some 10, false, false⟩, ⟨2, some 10, false, true⟩,
       ⟨3, some 20, true, false⟩]).2 ∧
    (C_GetSlotList_select true
      [⟨1, some 10, false, false⟩, ⟨2, some 10, false, true⟩,
       ⟨3, some 20, true, false⟩]).2 = [2] := by
  have h := claim_C9_slot_list
    [⟨1, some 10, false, false⟩, ⟨2, some 10, false, true⟩, ⟨3, some 20, true, false⟩]
    [⟨1, some 10, false, false⟩, ⟨2, some 10, false, true⟩, ⟨3, some 20, true, false⟩]
  refine ⟨h.2.1 ⟨2, some 10, false, true⟩ (by decide) (by decide), ?_⟩
  rw [h.2.2.2.1]
  decide
